/-
Verification of the Onedot supplier-data pipeline (src/onedot_utils.py, src/run.py).

The program is a three-stage pandas pipeline:
  * `preprocessing_supplier_data` pivots a long-format attribute table
    (one row per (identity, attribute) pair) into one wide row per identity;
  * `normalize_supplier_data` applies per-column remaps, renames, constant
    columns and type coercions to the wide table;
  * `integrate_supplier_data` projects the normalized table onto the target
    column list and vertically concatenates target rows with supplier rows.

Shallow embedding used here:
  * a dataframe (`DF`) is a list of column labels plus a list of rows, each
    row an association list from column label to cell value (`Val`);
  * pandas `NaN` is the distinguished value `Val.na`;
  * operations that can raise in pandas (`df[c]` on a missing column,
    `DataFrame.pivot` on duplicate index/column pairs, `astype` on a
    non-convertible value, `Series.apply` calling `len` on a non-string)
    return `Except String DF`, errors modelling the raised exception;
  * `float64` values are modelled as exact rationals (`Val.rat`); only
    parseability, not rounding, matters to any claim proved below;
  * Python `str.title` / `str.upper` are modelled on the ASCII alphabet
    (`Char.isAlpha`/`Char.toUpper`), which coincides with Python on every
    string appearing in the theorems below.
-/
import Mathlib

set_option autoImplicit false

namespace Onedot

/-- A dataframe cell value: a string, an `int64`, a `float64` (modelled as an
exact rational), a boolean, or pandas missing value `NaN`. -/
inductive Val where
  | str (s : String)
  | int (n : Int)
  | rat (q : Rat)
  | bool (b : Bool)
  | na
deriving DecidableEq, Repr

deriving instance DecidableEq for Except

/-- `true` iff the value is a Python `str`. -/
def Val.isStr : Val → Bool
  | .str _ => true
  | _ => false

/-- A dataframe row: an association list from column label to cell value. -/
abbrev Row := List (String × Val)

/-- Value of column `c` in a row; a label absent from the row reads as `NaN`
(as a reindexed pandas row would). -/
def Row.getV : Row → String → Val
  | [], _ => .na
  | (k, w) :: r, c => if k = c then w else Row.getV r c

/-- The row has an entry for label `c`. -/
def Row.hasKey (r : Row) (c : String) : Prop := c ∈ r.map Prod.fst

instance (r : Row) (c : String) : Decidable (r.hasKey c) := by
  unfold Row.hasKey
  infer_instance

/-- Replace the value stored under every entry with label `c` using `f`. -/
def Row.modifyVal (c : String) (f : Val → Val) : Row → Row
  | [] => []
  | (k, w) :: r => (k, if k = c then f w else w) :: Row.modifyVal c f r

/-- Rename every entry with label `o` to label `n`, keeping values. -/
def Row.renameKey (o n : String) : Row → Row
  | [] => []
  | (k, w) :: r => (if k = o then n else k, w) :: Row.renameKey o n r

/-- A dataframe: an ordered list of column labels and a list of rows. -/
structure DF where
  cols : List String
  rows : List Row
deriving DecidableEq, Repr

/-- Column label `c` is present in the dataframe. -/
def DF.hasCol (df : DF) (c : String) : Prop := c ∈ df.cols

instance (df : DF) (c : String) : Decidable (df.hasCol c) := by
  unfold DF.hasCol
  infer_instance

/-- Well-formedness: every row carries exactly the dataframe's column labels,
in order (true of every dataframe pandas builds). -/
def DF.WF (df : DF) : Prop := ∀ r ∈ df.rows, r.map Prod.fst = df.cols

instance (df : DF) : Decidable df.WF := by
  unfold DF.WF
  infer_instance

/-- Cell at row index `i`, column `c`; out-of-range reads give `NaN`. -/
def DF.cell (df : DF) (i : Nat) (c : String) : Val :=
  match df.rows[i]? with
  | some r => r.getV c
  | none => .na

/-! ### String helpers modelling Python string methods -/

/-- One pass of Python `str.title`: an alphabetic character is uppercased when
the previous character is not alphabetic and lowercased otherwise; the boolean
argument records whether the previous character was alphabetic. -/
def pyTitleAux : Bool → List Char → List Char
  | _, [] => []
  | prev, ch :: rest =>
    (if ch.isAlpha then (if prev then ch.toLower else ch.toUpper) else ch) ::
      pyTitleAux ch.isAlpha rest

/-- Python `str.title` (`onedot_utils.py` line 244 uses `.str.title()`). -/
def pyTitle (s : String) : String := String.mk (pyTitleAux false s.data)

/-- The lambda of `onedot_utils.py` lines 253-254:
`x.upper() if len(x) < 4 else x`, i.e. the whole string is uppercased when the
whole string is shorter than 4 characters. -/
def upperShort (s : String) : String :=
  if s.length < 4 then String.mk (s.data.map Char.toUpper) else s

/-- An alphabetic token (maximal alphabetic run), uppercased when it is shorter
than 4 characters.  Used only to state the spec's per-token reading of the
casing rule, for comparison with the code's whole-string rule `upperShort`. -/
def commitRun (run : List Char) : List Char :=
  if run.length < 4 then run.map Char.toUpper else run

/-- Walk a character list splitting it into maximal alphabetic runs, uppercasing
every run shorter than 4 characters (per-token reading of the casing rule). -/
def tokenUpperAux (run : List Char) : List Char → List Char
  | [] => commitRun run
  | ch :: rest =>
    if ch.isAlpha then tokenUpperAux (run ++ [ch]) rest
    else commitRun run ++ ch :: tokenUpperAux [] rest

/-- Per-token uppercase rule: every maximal alphabetic token shorter than 4
characters is fully uppercased (the spec sentence's reading). -/
def tokenUpper (s : String) : String := String.mk (tokenUpperAux [] s.data)

/-- Digits of a character run read as a natural number. -/
def digitsVal (l : List Char) : Nat :=
  l.foldl (fun a c => a * 10 + (c.toNat - 48)) 0

/-- All characters are decimal digits. -/
def allDigits (l : List Char) : Bool := l.all Char.isDigit

/-- Integer parse used by `astype('int64')` on strings: optional sign followed
by decimal digits (Python `int`). -/
def pyInt? (s : String) : Option Int :=
  match s.data with
  | '-' :: rest =>
    if rest ≠ [] ∧ allDigits rest then some (-(digitsVal rest : Int)) else none
  | '+' :: rest =>
    if rest ≠ [] ∧ allDigits rest then some ((digitsVal rest : Int)) else none
  | l =>
    if l ≠ [] ∧ allDigits l then some ((digitsVal l : Int)) else none

/-- Unsigned decimal float parse: digits with at most one decimal point and at
least one digit (covers every numeric string in the supplier feed). -/
def pyFloatCore (l : List Char) : Option Rat :=
  let intPart := l.takeWhile (fun c => c != '.')
  match l.dropWhile (fun c => c != '.') with
  | [] =>
    if l ≠ [] ∧ allDigits l then some ((digitsVal l : Int) : Rat) else none
  | '.' :: frac =>
    if (intPart ≠ [] ∨ frac ≠ []) ∧ allDigits intPart ∧ allDigits frac then
      some (((digitsVal intPart : Int) : Rat) +
        ((digitsVal frac : Int) : Rat) / ((10 : Rat) ^ frac.length))
    else none
  | _ :: _ => none

/-- Float parse used by `astype('float64')` on strings: optional sign followed
by an unsigned decimal literal. -/
def pyFloat? (s : String) : Option Rat :=
  match s.data with
  | '-' :: rest => (pyFloatCore rest).map Neg.neg
  | '+' :: rest => pyFloatCore rest
  | l => pyFloatCore l

/-! ### Per-value transforms used by the column operations -/

/-- `Series.map(dict)` on one value: a string found in the table maps to its
image, anything else (unmapped string, non-string, `NaN`) maps to `NaN`. -/
def lookupStr : List (String × String) → String → Option String
  | [], _ => none
  | (k, t) :: tbl, s => if k = s then some t else lookupStr tbl s

/-- Elementwise action of `Series.map(dict)`. -/
def mapVal (tbl : List (String × String)) : Val → Val
  | .str s =>
    match lookupStr tbl s with
    | some t => .str t
    | none => .na
  | _ => .na

/-- Elementwise action of `Series.fillna(v)`. -/
def fillVal (v : Val) : Val → Val := fun w => if w = .na then v else w

/-- Elementwise action of `.str.title()`: non-strings become `NaN`. -/
def titleVal : Val → Val
  | .str s => .str (pyTitle s)
  | _ => .na

/-- Elementwise action of the `apply` lambda at lines 253-254 on a string. -/
def upperShortVal : Val → Val
  | .str s => .str (upperShort s)
  | v => v

/-- Elementwise `astype('int64')`: strings must parse as integers, floats are
truncated toward zero, booleans become 0/1, and `NaN` cannot be converted. -/
def intCoerce? : Val → Option Val
  | .str s => (pyInt? s).map Val.int
  | .int n => some (.int n)
  | .rat q => some (.int (q.num.tdiv q.den))
  | .bool b => some (.int (if b then 1 else 0))
  | .na => none

/-- Elementwise `astype('float64')`: strings must parse as decimal literals;
`NaN` is a legal `float64` value and is kept. -/
def floatCoerce? : Val → Option Val
  | .str s => (pyFloat? s).map Val.rat
  | .int n => some (.rat (n : Rat))
  | .rat q => some (.rat q)
  | .bool b => some (.rat (if b then 1 else 0))
  | .na => some .na

/-! ### Dataframe operations (the pandas calls made by the source) -/

/-- Overwrite an existing column elementwise with `f` (common success shape of
`map`, `fillna`, `.str.title`, `apply`, `astype` on a present column). -/
def DF.withModify (df : DF) (c : String) (f : Val → Val) : DF :=
  ⟨df.cols, df.rows.map (Row.modifyVal c f)⟩

/-- `df[c] = v` with a constant right-hand side: overwrite the column when the
label exists, else append a new column filled with `v`. -/
def DF.setConst (df : DF) (c : String) (v : Val) : DF :=
  if df.hasCol c then
    df.withModify c (fun _ => v)
  else
    ⟨df.cols ++ [c], df.rows.map (fun r => r ++ [(c, v)])⟩

/-- `df.rename(columns={o: n})`: silently a no-op when `o` is absent. -/
def DF.rename (df : DF) (o n : String) : DF :=
  ⟨df.cols.map (fun x => if x = o then n else x), df.rows.map (Row.renameKey o n)⟩

/-- Success value of `df.loc[df[m] == needle, tgt] = v`: masked rows get `v`
in column `tgt`; when `tgt` is a new label the unmasked rows get `NaN`. -/
def DF.locSetVal (df : DF) (m : String) (needle : Val) (tgt : String) (v : Val) :
    DF :=
  if df.hasCol tgt then
    ⟨df.cols, df.rows.map (fun r =>
      if r.getV m = needle then Row.modifyVal tgt (fun _ => v) r else r)⟩
  else
    ⟨df.cols ++ [tgt], df.rows.map (fun r =>
      r ++ [(tgt, if r.getV m = needle then v else .na)])⟩

/-- `df.loc[df[m] == needle, tgt] = v`: raises `KeyError` when the mask column
`m` is absent. -/
def DF.locSet (df : DF) (m : String) (needle : Val) (tgt : String) (v : Val) :
    Except String DF :=
  if df.hasCol m then .ok (df.locSetVal m needle tgt v)
  else .error ("KeyError: " ++ m)

/-- `df[c] = df[c].map(tbl)`: raises `KeyError` when `c` is absent. -/
def DF.mapCol (df : DF) (c : String) (tbl : List (String × String)) :
    Except String DF :=
  if df.hasCol c then .ok (df.withModify c (mapVal tbl))
  else .error ("KeyError: " ++ c)

/-- `df[c].fillna(value=v, inplace=True)`: raises `KeyError` when `c` is
absent. -/
def DF.fillna (df : DF) (c : String) (v : Val) : Except String DF :=
  if df.hasCol c then .ok (df.withModify c (fillVal v))
  else .error ("KeyError: " ++ c)

/-- `df[c] = df[c].str.title()`: raises `KeyError` when `c` is absent;
elementwise, non-strings become `NaN`. -/
def DF.strTitle (df : DF) (c : String) : Except String DF :=
  if df.hasCol c then .ok (df.withModify c titleVal)
  else .error ("KeyError: " ++ c)

/-- `df[c] = df[c].apply(lambda x: x.upper() if len(x) < 4 else x)`: raises
`KeyError` when `c` is absent and `TypeError` when any element is not a string
(`len` of a float `NaN` raises). -/
def DF.applyUpperShort (df : DF) (c : String) : Except String DF :=
  if df.hasCol c then
    if df.rows.all (fun r => (r.getV c).isStr) then
      .ok (df.withModify c upperShortVal)
    else .error "TypeError: object of type float has no len()"
  else .error ("KeyError: " ++ c)

/-- `df[c] = df[c].astype(dtype)` for a numeric dtype with elementwise
conversion `coe`: raises `KeyError` when `c` is absent and `ValueError` when
any element fails to convert; otherwise converts the whole column. -/
def DF.astype (df : DF) (c : String) (coe : Val → Option Val) :
    Except String DF :=
  if df.hasCol c then
    if df.rows.all (fun r => (coe (r.getV c)).isSome) then
      .ok (df.withModify c (fun v => (coe v).getD .na))
    else .error ("ValueError: could not convert column " ++ c)
  else .error ("KeyError: " ++ c)

/-! ### The supplier long-format records and the pivot (`preprocessing_supplier_data`) -/

/-- One line of `supplier_car.json`: the six identity fields, one attribute
name and one attribute value.  (`pd.read_json(..., lines=True)` produces one
such record per line; the file read itself is the I/O boundary and is not
modelled.) -/
structure SupplierRecord where
  id : String
  makeText : String
  typeName : String
  typeNameFull : String
  modelText : String
  modelTypeText : String
  attrName : String
  attrValue : Val
deriving DecidableEq, Repr

/-- The composite pivot index of `preprocessing_supplier_data` (line 71). -/
structure Identity where
  id : String
  makeText : String
  typeName : String
  typeNameFull : String
  modelText : String
  modelTypeText : String
deriving DecidableEq, Repr

/-- Identity tuple of a record. -/
def SupplierRecord.identity (r : SupplierRecord) : Identity :=
  ⟨r.id, r.makeText, r.typeName, r.typeNameFull, r.modelText, r.modelTypeText⟩

/-- Code-point lexicographic order on character lists (Python string `<=`). -/
def lexLe : List Char → List Char → Bool
  | [], _ => true
  | _ :: _, [] => false
  | a :: as, b :: bs =>
    if a.toNat < b.toNat then true
    else if b.toNat < a.toNat then false
    else lexLe as bs

/-- Python string `<=`. -/
def strLeB (a b : String) : Bool := lexLe a.data b.data

/-- Fields of an identity as a list, in pivot-index order. -/
def Identity.fields (t : Identity) : List String :=
  [t.id, t.makeText, t.typeName, t.typeNameFull, t.modelText, t.modelTypeText]

/-- Lexicographic order on identities, as the pandas sorted pivot index. -/
def idLe (a b : Identity) : Bool :=
  lexLe (String.join a.fields).data (String.join b.fields).data

/-- The six identity column labels of the pivot index. -/
def identityCols : List String :=
  ["ID", "MakeText", "TypeName", "TypeNameFull", "ModelText", "ModelTypeText"]

/-- The identity cells of the wide row for identity `t`. -/
def identityRow (t : Identity) : Row :=
  [("ID", .str t.id), ("MakeText", .str t.makeText), ("TypeName", .str t.typeName),
   ("TypeNameFull", .str t.typeNameFull), ("ModelText", .str t.modelText),
   ("ModelTypeText", .str t.modelTypeText)]

/-- First record carrying attribute `a` for identity `t`, if any. -/
def findAttr (records : List SupplierRecord) (t : Identity) (a : String) :
    Option Val :=
  (records.find? (fun r => r.identity = t ∧ r.attrName = a)).map (·.attrValue)

/-- The (identity, attribute-name) pairs of the records, the pivot's
index/column pairs. -/
def pivotPairs (records : List SupplierRecord) : List (Identity × String) :=
  records.map (fun r => (r.identity, r.attrName))

/-- The distinct identity tuples of the records, in sorted pivot-index
order. -/
def pivotIdentities (records : List SupplierRecord) : List Identity :=
  ((records.map SupplierRecord.identity).dedup).insertionSort
    (fun a b => idLe a b = true)

/-- The distinct attribute names of the records, in sorted column order. -/
def pivotAttrNames (records : List SupplierRecord) : List String :=
  ((records.map SupplierRecord.attrName).dedup).insertionSort
    (fun a b => strLeB a b = true)

/-- `preprocessing_supplier_data` (lines 71-79): pivot the long table on the
six identity fields against `Attribute Names`/`Attribute Values`, then
`droplevel`/`reset_index` so the identity fields become leading columns.
`DataFrame.pivot` raises `ValueError` when an (index, columns) pair is
duplicated; otherwise the index and the attribute columns come out sorted.
A (identity, attribute) cell with no record reads as `NaN`. -/
def preprocessing_supplier_data (records : List SupplierRecord) :
    Except String DF :=
  if (pivotPairs records).Nodup then
    .ok ⟨identityCols ++ pivotAttrNames records,
      (pivotIdentities records).map (fun t =>
        identityRow t ++ (pivotAttrNames records).map
          (fun a => (a, (findAttr records t a).getD .na)))⟩
  else .error "ValueError: Index contains duplicate entries, cannot reshape"

/-! ### The normalizer (`normalize_supplier_data`) -/

/-- `bodyTypeText_to_carType` (lines 146-151). -/
def bodyTypeText_to_carType : List (String × String) :=
  [("Limousine", "Custom"), ("Kombi", "Station Wagon"), ("Coupé", "Coupé"),
   ("SUV / Geländewagen", "SUV"), ("Cabriolet", "Convertible / Roadster"),
   ("Pick-up", "SUV")]

/-- `bodyColorText_to_color` (lines 175-187). -/
def bodyColorText_to_color : List (String × String) :=
  [("beige", "Beige"), ("beige mét.", "Beige"),
   ("blau", "Blue"), ("blau mét.", "Blue"),
   ("braun", "Brown"), ("braun mét.", "Brown"),
   ("gelb", "Yellow"), ("gelb mét.", "Yellow"),
   ("gold", "Gold"), ("gold mét.", "Gold"),
   ("grau", "Gray"), ("grau mét.", "Gray"),
   ("grün", "Green"), ("grün mét.", "Green"),
   ("orange", "Orange"), ("orange mét.", "Orange"),
   ("rot", "Red"), ("rot mét.", "Red"),
   ("schwarz", "Black"), ("schwarz mét.", "Black"),
   ("silber", "Silver"), ("silber mét.", "Silver"),
   ("violett mét.", "Purple"),
   ("weiss", "White"), ("weiss mét.", "White")]

/-- `conditionTypeText_to_condition` (lines 208-211).  Note that the matching
`fillna` (line 215) is commented out in the source, so unmapped conditions
stay `NaN`. -/
def conditionTypeText_to_condition : List (String × String) :=
  [("Occasion", "Used"), ("Oldtimer", "Used"), ("Neu", "New"),
   ("Vorführmodell", "Used")]

/-- `normalize_supplier_data` (lines 91-330), statement by statement.  Every
statement of the Python function updates its argument `step1_df` in place
(`inplace=True` renames and `fillna`, `df[...] = ...` column assignments,
`.loc[...] = ...` masked assignments) and the function returns that same
object, so the final state of the caller's dataframe is exactly the returned
dataframe.  In this embedding the in-place chain is written as explicit state
passing through `Except.bind`. -/
def normalize_supplier_data (df0 : DF) : Except String DF :=
  -- line 127: step1_df['type'] = 'car'
  let df1 := df0.setConst "type" (.str "car")
  -- line 128: .loc[MakeText == 'HARLEY-DAVIDSON', 'type'] = 'Other'
  (df1.locSet "MakeText" (.str "HARLEY-DAVIDSON") "type" (.str "Other")).bind fun df2 =>
  -- lines 129-130: .loc[BodyTypeText == 'Sattelschlepper', 'type'] = 'Other'
  (df2.locSet "BodyTypeText" (.str "Sattelschlepper") "type" (.str "Other")).bind fun df3 =>
  -- lines 156-157: BodyTypeText = BodyTypeText.map(bodyTypeText_to_carType)
  (df3.mapCol "BodyTypeText" bodyTypeText_to_carType).bind fun df4 =>
  -- line 158: BodyTypeText.fillna('Other')
  (df4.fillna "BodyTypeText" (.str "Other")).bind fun df5 =>
  -- line 161: rename BodyTypeText -> carType
  let df6 := df5.rename "BodyTypeText" "carType"
  -- lines 189-190: BodyColorText.map(bodyColorText_to_color)
  (df6.mapCol "BodyColorText" bodyColorText_to_color).bind fun df7 =>
  -- line 191: BodyColorText.fillna('Other')
  (df7.fillna "BodyColorText" (.str "Other")).bind fun df8 =>
  -- line 194: rename BodyColorText -> color
  let df9 := df8.rename "BodyColorText" "color"
  -- lines 213-214: ConditionTypeText.map(...); the fillna at line 215 is commented out
  (df9.mapCol "ConditionTypeText" conditionTypeText_to_condition).bind fun df10 =>
  -- line 218: rename ConditionTypeText -> condition
  let df11 := df10.rename "ConditionTypeText" "condition"
  -- line 225: currency = 'CHF'
  let df12 := df11.setConst "currency" (.str "CHF")
  -- line 232: drive = NaN
  let df13 := df12.setConst "drive" .na
  -- line 236: rename City -> city
  let df14 := df13.rename "City" "city"
  -- line 239: country = 'CH'
  let df15 := df14.setConst "country" (.str "CH")
  -- line 244: MakeText = MakeText.str.title()
  (df15.strTitle "MakeText").bind fun df16 =>
  -- lines 253-254: MakeText = MakeText.apply(lambda x: x.upper() if len(x) < 4 else x)
  (df16.applyUpperShort "MakeText").bind fun df17 =>
  -- line 257: .loc[MakeText == 'Bmw-Alpina', 'MakeText'] = 'Alpina'
  (df17.locSet "MakeText" (.str "Bmw-Alpina") "MakeText" (.str "Alpina")).bind fun df18 =>
  -- line 260: .loc[MakeText == 'Mclaren', 'MakeText'] = 'McLaren'
  (df18.locSet "MakeText" (.str "Mclaren") "MakeText" (.str "McLaren")).bind fun df19 =>
  -- line 263: .loc[MakeText == 'Mini', 'MakeText'] = 'MINI'
  (df19.locSet "MakeText" (.str "Mini") "MakeText" (.str "MINI")).bind fun df20 =>
  -- line 266: .loc[MakeText == 'RUF', 'MakeText'] = 'Ruf'
  (df20.locSet "MakeText" (.str "RUF") "MakeText" (.str "Ruf")).bind fun df21 =>
  -- line 269: rename MakeText -> make
  let df22 := df21.rename "MakeText" "make"
  -- line 273: FirstRegYear.astype('int64')
  (df22.astype "FirstRegYear" intCoerce?).bind fun df23 =>
  -- line 276: rename FirstRegYear -> manufacture_year
  let df24 := df23.rename "FirstRegYear" "manufacture_year"
  -- line 280: Km.astype('float64')
  (df24.astype "Km" floatCoerce?).bind fun df25 =>
  -- line 283: rename Km -> mileage
  let df26 := df25.rename "Km" "mileage"
  -- line 287: mileage_unit = 'kilometer'
  let df27 := df26.setConst "mileage_unit" (.str "kilometer")
  -- line 291: rename ModelText -> model
  let df28 := df27.rename "ModelText" "model"
  -- line 294: rename ModelTypeText -> model_variant
  let df29 := df28.rename "ModelTypeText" "model_variant"
  -- line 298: price_on_request = True
  let df30 := df29.setConst "price_on_request" (.bool true)
  -- line 306: zip = 'St. Gallen'
  let df31 := df30.setConst "zip" (.str "St. Gallen")
  -- line 307: .loc[city == 'Basel', 'zip'] = 'Basel-Stadt'
  (df31.locSet "city" (.str "Basel") "zip" (.str "Basel-Stadt")).bind fun df32 =>
  -- line 308: .loc[city == 'Porrentrury', 'zip'] = 'Jura'
  (df32.locSet "city" (.str "Porrentrury") "zip" (.str "Jura")).bind fun df33 =>
  -- line 309: .loc[city == 'Safenwil', 'zip'] = 'Aargau'
  (df33.locSet "city" (.str "Safenwil") "zip" (.str "Aargau")).bind fun df34 =>
  -- line 310: .loc[city == 'Sursee', 'zip'] = 'Lucerne'
  (df34.locSet "city" (.str "Sursee") "zip" (.str "Lucerne")).bind fun df35 =>
  -- line 315: FirstRegMonth.astype('float64')
  (df35.astype "FirstRegMonth" floatCoerce?).bind fun df36 =>
  -- lines 318-319: rename FirstRegMonth -> manufacture_month
  let df37 := df36.rename "FirstRegMonth" "manufacture_month"
  -- line 325: fuel_consumption_unit = 'l_km_consumption'
  let df38 := df37.setConst "fuel_consumption_unit" (.str "l_km_consumption")
  -- lines 326-327: .loc[ConsumptionRatingText == 'null', 'fuel_consumption_unit'] = NaN
  (df38.locSet "ConsumptionRatingText" (.str "null") "fuel_consumption_unit" .na)

/-- Final state of the caller's dataframe object paired with the return value
of `normalize_supplier_data`.  Every mutating statement of the Python function
acts on the caller's object through the aliased parameter `step1_df`
(column assignments, `inplace=True` renames/`fillna`, `.loc` masked
assignments) and line 330 returns that same object, so on success both
components are the same dataframe. -/
def normalizeWithInputState (df : DF) : Except String (DF × DF) :=
  (normalize_supplier_data df).map (fun out => (out, out))

/-! ### The integrator (`integrate_supplier_data`) -/

/-- Reindex a row to a column list: pandas `concat` fills columns a source
frame lacks with `NaN`. -/
def reindexRow (cols : List String) (r : Row) : Row :=
  cols.map (fun c => (c, r.getV c))

/-- Column union of `pd.concat`: first frame's labels, then the second
frame's labels not already present, in order. -/
def concatCols (d1 d2 : DF) : List String :=
  d1.cols ++ d2.cols.filter (fun c => !decide (c ∈ d1.cols))

/-- `pd.concat([d1, d2], ignore_index=True)` (line 362): the column set is the
union in first-frame-then-new order, rows of `d1` precede rows of `d2`, both
reindexed to the union, and the result gets a fresh zero-based sequential
index — positional indexing in this embedding. -/
def concatIgnoreIndex (d1 d2 : DF) : DF :=
  ⟨concatCols d1 d2,
   d1.rows.map (reindexRow (concatCols d1 d2)) ++
     d2.rows.map (reindexRow (concatCols d1 d2))⟩

/-- `step2_df[customer_col_names]` (line 359): column projection, raising
`KeyError` when any requested label is absent. -/
def projectCols (df : DF) (names : List String) : Except String DF :=
  if ∀ c ∈ names, df.hasCol c then
    .ok ⟨names, df.rows.map (reindexRow names)⟩
  else .error "KeyError: columns not in index"

/-- `integrate_supplier_data` (lines 333-368): filter the normalized columns
to the customer column list, then vertically stack customer and supplier. -/
def integrate_supplier_data (step2_df customer_df : DF)
    (customer_col_names : List String) : Except String DF :=
  (projectCols step2_df customer_col_names).bind fun filtered_df =>
  .ok (concatIgnoreIndex customer_df filtered_df)

/-! ### Row-level lemmas -/

theorem getV_modifyVal_ne {c c' : String} (h : c' ≠ c) (f : Val → Val) :
    ∀ r : Row, (Row.modifyVal c f r).getV c' = r.getV c' := by
  intro r
  induction r with
  | nil => rfl
  | cons hd tl ih =>
    obtain ⟨k, w⟩ := hd
    by_cases hk : k = c
    · subst hk
      simp [Row.modifyVal, Row.getV, Ne.symm h, ih]
    · simp [Row.modifyVal, Row.getV, hk, ih]

theorem getV_modifyVal_self (c : String) (f : Val → Val) :
    ∀ r : Row, (Row.modifyVal c f r).getV c =
      if r.hasKey c then f (r.getV c) else .na := by
  intro r
  induction r with
  | nil => rfl
  | cons hd tl ih =>
    obtain ⟨k, w⟩ := hd
    by_cases hk : k = c
    · subst hk
      simp [Row.modifyVal, Row.getV, Row.hasKey]
    · by_cases hc : c ∈ List.map Prod.fst tl <;>
        simp [Row.modifyVal, Row.getV, hk, ih, Row.hasKey, List.mem_cons, hc,
          Ne.symm hk]

theorem getV_append_single_ne {c c' : String} (h : c' ≠ c) (v : Val) :
    ∀ r : Row, (r ++ [(c, v)]).getV c' = r.getV c' := by
  intro r
  induction r with
  | nil => simp [Row.getV, Ne.symm h]
  | cons hd tl ih =>
    obtain ⟨k, w⟩ := hd
    by_cases hk : k = c'
    · simp [Row.getV, hk]
    · simp [Row.getV, hk, ih]

theorem getV_append_single_self (c : String) (v : Val) :
    ∀ r : Row, (r ++ [(c, v)]).getV c = if r.hasKey c then r.getV c else v := by
  intro r
  induction r with
  | nil => simp [Row.getV, Row.hasKey]
  | cons hd tl ih =>
    obtain ⟨k, w⟩ := hd
    by_cases hk : k = c
    · simp [Row.getV, Row.hasKey, hk]
    · by_cases hc : c ∈ List.map Prod.fst tl <;>
        simp [Row.getV, Row.hasKey, hk, ih, List.mem_cons, hc, Ne.symm hk]

theorem getV_eq_na_of_not_hasKey {c : String} :
    ∀ {r : Row}, ¬ r.hasKey c → r.getV c = .na := by
  intro r
  induction r with
  | nil => intro _; rfl
  | cons hd tl ih =>
    obtain ⟨k, w⟩ := hd
    intro h
    simp only [Row.hasKey, List.map_cons, List.mem_cons] at h
    push_neg at h
    simp [Row.getV, Ne.symm h.1, ih (by simpa [Row.hasKey] using h.2)]

theorem getV_renameKey_ne {c o n : String} (ho : c ≠ o) (hn : c ≠ n) :
    ∀ r : Row, (Row.renameKey o n r).getV c = r.getV c := by
  intro r
  induction r with
  | nil => rfl
  | cons hd tl ih =>
    obtain ⟨k, w⟩ := hd
    by_cases hk : k = o
    · subst hk
      simp [Row.renameKey, Row.getV, Ne.symm hn, Ne.symm ho, ih]
    · simp [Row.renameKey, Row.getV, hk, ih]

theorem getV_renameKey_new {o n : String} :
    ∀ {r : Row}, ¬ r.hasKey n → (Row.renameKey o n r).getV n = r.getV o := by
  intro r
  induction r with
  | nil => intro _; rfl
  | cons hd tl ih =>
    obtain ⟨k, w⟩ := hd
    intro h
    simp only [Row.hasKey, List.map_cons, List.mem_cons] at h
    push_neg at h
    have htl : ¬ Row.hasKey tl n := by simpa [Row.hasKey] using h.2
    by_cases hk : k = o
    · subst hk
      simp [Row.renameKey, Row.getV, ih htl]
    · simp [Row.renameKey, Row.getV, hk, Ne.symm h.1, ih htl]

theorem keys_modifyVal (c : String) (f : Val → Val) :
    ∀ r : Row, (Row.modifyVal c f r).map Prod.fst = r.map Prod.fst := by
  intro r
  induction r with
  | nil => rfl
  | cons hd tl ih =>
    obtain ⟨k, w⟩ := hd
    by_cases hk : k = c
    · simp [Row.modifyVal, hk, ih]
    · simp [Row.modifyVal, hk, ih]

theorem keys_renameKey (o n : String) :
    ∀ r : Row, (Row.renameKey o n r).map Prod.fst =
      (r.map Prod.fst).map (fun x => if x = o then n else x) := by
  intro r
  induction r with
  | nil => rfl
  | cons hd tl ih =>
    obtain ⟨k, w⟩ := hd
    by_cases hk : k = o
    · simp [Row.renameKey, hk, ih]
    · simp [Row.renameKey, hk, ih]

/-! ### Dataframe-level lemmas -/

theorem DF.cell_in_range (df : DF) (i : Nat) (c : String)
    (hi : i < df.rows.length) : df.cell i c = (df.rows[i]).getV c := by
  unfold DF.cell
  rw [List.getElem?_eq_getElem hi]

theorem DF.cell_out_of_range (df : DF) (i : Nat) (c : String)
    (hi : df.rows.length ≤ i) : df.cell i c = .na := by
  unfold DF.cell
  rw [List.getElem?_eq_none hi]

theorem cell_map_pointwise (df : DF) (cols' : List String) (g : Row → Row)
    (i : Nat) (c : String) (hg : ∀ r : Row, (g r).getV c = r.getV c) :
    DF.cell ⟨cols', df.rows.map g⟩ i c = df.cell i c := by
  unfold DF.cell
  simp only [List.getElem?_map]
  cases df.rows[i]? with
  | none => rfl
  | some r => exact hg r

theorem all_rows_iff_cells (df : DF) (p : Val → Bool) (c : String) :
    df.rows.all (fun r => p (r.getV c)) = true ↔
      ∀ i, i < df.rows.length → p (df.cell i c) = true := by
  rw [List.all_eq_true]
  constructor
  · intro h i hi
    rw [df.cell_in_range i c hi]
    exact h _ (List.getElem_mem hi)
  · intro h r hr
    obtain ⟨i, hi, rfl⟩ := List.mem_iff_getElem.mp hr
    have := h i hi
    rwa [df.cell_in_range i c hi] at this

/-- A member row of a well-formed dataframe has a key iff the dataframe has
the column. -/
theorem DF.WF.hasKey_iff {df : DF} (hWF : df.WF) {r : Row} (hr : r ∈ df.rows)
    (c : String) : r.hasKey c ↔ df.hasCol c := by
  unfold Row.hasKey DF.hasCol
  rw [hWF r hr]

/-! #### `withModify` -/

theorem withModify_cols (df : DF) (c : String) (f : Val → Val) :
    (df.withModify c f).cols = df.cols := rfl

theorem withModify_hasCol (df : DF) (c : String) (f : Val → Val) (x : String) :
    (df.withModify c f).hasCol x ↔ df.hasCol x := Iff.rfl

theorem withModify_rows_length (df : DF) (c : String) (f : Val → Val) :
    (df.withModify c f).rows.length = df.rows.length := by
  unfold DF.withModify
  simp

theorem withModify_cell_ne (df : DF) {c c' : String} (h : c' ≠ c)
    (f : Val → Val) (i : Nat) :
    (df.withModify c f).cell i c' = df.cell i c' :=
  cell_map_pointwise df _ _ i c' (fun r => getV_modifyVal_ne h f r)

theorem withModify_cell_self (df : DF) (c : String) (f : Val → Val)
    (hWF : df.WF) (hc : df.hasCol c) (i : Nat) (hi : i < df.rows.length) :
    (df.withModify c f).cell i c = f (df.cell i c) := by
  have hlen : i < (df.withModify c f).rows.length := by
    rwa [withModify_rows_length]
  rw [DF.cell_in_range _ i c hlen, df.cell_in_range i c hi]
  unfold DF.withModify
  simp only [List.getElem_map]
  rw [getV_modifyVal_self]
  have hk : (df.rows[i]).hasKey c :=
    (hWF.hasKey_iff (List.getElem_mem hi) c).mpr hc
  rw [if_pos hk]

theorem withModify_WF (df : DF) (c : String) (f : Val → Val) (hWF : df.WF) :
    (df.withModify c f).WF := by
  intro r hr
  unfold DF.withModify at hr ⊢
  simp only [List.mem_map] at hr
  obtain ⟨r0, hr0, rfl⟩ := hr
  simp only
  rw [keys_modifyVal]
  exact hWF r0 hr0

/-! #### `setConst` -/

theorem setConst_rows_length (df : DF) (c : String) (v : Val) :
    (df.setConst c v).rows.length = df.rows.length := by
  unfold DF.setConst
  split
  · exact withModify_rows_length df c _
  · simp

theorem setConst_hasCol (df : DF) (c : String) (v : Val) (x : String) :
    (df.setConst c v).hasCol x ↔ (df.hasCol x ∨ x = c) := by
  unfold DF.setConst
  split
  · rename_i h
    rw [withModify_hasCol]
    constructor
    · exact Or.inl
    · rintro (hx | rfl)
      · exact hx
      · exact h
  · show x ∈ df.cols ++ [c] ↔ _
    simp [DF.hasCol]

theorem setConst_cell_ne (df : DF) {c c' : String} (h : c' ≠ c) (v : Val)
    (i : Nat) : (df.setConst c v).cell i c' = df.cell i c' := by
  unfold DF.setConst
  split
  · exact withModify_cell_ne df h _ i
  · exact cell_map_pointwise df _ _ i c' (fun r => getV_append_single_ne h v r)

theorem setConst_cell_self (df : DF) (c : String) (v : Val) (hWF : df.WF)
    (i : Nat) (hi : i < df.rows.length) : (df.setConst c v).cell i c = v := by
  unfold DF.setConst
  split
  · rename_i h
    rw [withModify_cell_self df c _ hWF h i hi]
  · rename_i h
    have hlen : i < (df.rows.map (fun r => r ++ [(c, v)])).length := by
      simpa using hi
    rw [DF.cell_in_range _ i c hlen]
    simp only [List.getElem_map]
    rw [getV_append_single_self]
    have hk : ¬ (df.rows[i]).hasKey c := fun hk =>
      h ((hWF.hasKey_iff (List.getElem_mem hi) c).mp hk)
    rw [if_neg hk]

theorem setConst_WF (df : DF) (c : String) (v : Val) (hWF : df.WF) :
    (df.setConst c v).WF := by
  unfold DF.setConst
  split
  · exact withModify_WF df c _ hWF
  · intro r hr
    simp only [List.mem_map] at hr
    obtain ⟨r0, hr0, rfl⟩ := hr
    simp [hWF r0 hr0]

/-! #### `rename` -/

theorem rename_rows_length (df : DF) (o n : String) :
    (df.rename o n).rows.length = df.rows.length := by
  unfold DF.rename
  simp

theorem rename_hasCol_ne (df : DF) {x o n : String} (hxo : x ≠ o)
    (hxn : x ≠ n) : (df.rename o n).hasCol x ↔ df.hasCol x := by
  show x ∈ _ ↔ x ∈ df.cols
  unfold DF.rename
  simp only [List.mem_map]
  constructor
  · rintro ⟨y, hy, hyx⟩
    by_cases hyo : y = o
    · rw [if_pos hyo] at hyx
      exact absurd hyx.symm hxn
    · rw [if_neg hyo] at hyx
      exact hyx ▸ hy
  · intro hx
    exact ⟨x, hx, by rw [if_neg hxo]⟩

theorem rename_hasCol_not_old (df : DF) {o n : String} (h : o ≠ n) :
    ¬ (df.rename o n).hasCol o := by
  show o ∉ _
  unfold DF.rename
  simp only [List.mem_map]
  rintro ⟨y, _, hyx⟩
  by_cases hyo : y = o
  · rw [if_pos hyo] at hyx
    exact h hyx.symm
  · rw [if_neg hyo] at hyx
    exact hyo hyx

theorem rename_hasCol_new (df : DF) (o n : String) :
    (df.rename o n).hasCol n ↔ (df.hasCol o ∨ df.hasCol n) := by
  show n ∈ _ ↔ o ∈ df.cols ∨ n ∈ df.cols
  unfold DF.rename
  simp only [List.mem_map]
  constructor
  · rintro ⟨y, hy, hyx⟩
    by_cases hyo : y = o
    · exact Or.inl (hyo ▸ hy)
    · rw [if_neg hyo] at hyx
      exact Or.inr (hyx ▸ hy)
  · rintro (ho | hn)
    · exact ⟨o, ho, by rw [if_pos rfl]⟩
    · by_cases hno : n = o
      · exact ⟨n, hn, by rw [if_pos hno, hno]⟩
      · exact ⟨n, hn, by rw [if_neg hno]⟩

theorem rename_cell_ne (df : DF) {c o n : String} (hco : c ≠ o) (hcn : c ≠ n)
    (i : Nat) : (df.rename o n).cell i c = df.cell i c :=
  cell_map_pointwise df _ _ i c (fun r => getV_renameKey_ne hco hcn r)

theorem rename_cell_new (df : DF) (o n : String) (hWF : df.WF)
    (hn : ¬ df.hasCol n) (i : Nat) :
    (df.rename o n).cell i n = df.cell i o := by
  by_cases hi : i < df.rows.length
  · have hlen : i < (df.rename o n).rows.length := by
      rwa [rename_rows_length]
    rw [DF.cell_in_range _ i n hlen, df.cell_in_range i o hi]
    unfold DF.rename
    simp only [List.getElem_map]
    apply getV_renameKey_new
    exact fun hk => hn ((hWF.hasKey_iff (List.getElem_mem hi) n).mp hk)
  · push_neg at hi
    rw [DF.cell_out_of_range _ i n (by rwa [rename_rows_length]),
      df.cell_out_of_range i o hi]

theorem rename_WF (df : DF) (o n : String) (hWF : df.WF) :
    (df.rename o n).WF := by
  intro r hr
  unfold DF.rename at hr ⊢
  simp only [List.mem_map] at hr
  obtain ⟨r0, hr0, rfl⟩ := hr
  simp only
  rw [keys_renameKey, hWF r0 hr0]

/-! #### `locSet` -/

theorem locSet_eq_ok (df : DF) (m : String) (needle : Val) (tgt : String)
    (v : Val) (hm : df.hasCol m) :
    df.locSet m needle tgt v = .ok (df.locSetVal m needle tgt v) := by
  unfold DF.locSet
  rw [if_pos hm]

theorem locSet_ok_elim {df df' : DF} {m : String} {needle : Val} {tgt : String}
    {v : Val} (h : df.locSet m needle tgt v = .ok df') :
    df.hasCol m ∧ df' = df.locSetVal m needle tgt v := by
  unfold DF.locSet at h
  split at h
  · rename_i hm
    exact ⟨hm, (Except.ok.injEq .. ▸ h).symm⟩
  · exact absurd h (by simp)

theorem locSetVal_rows_length (df : DF) (m : String) (needle : Val)
    (tgt : String) (v : Val) :
    (df.locSetVal m needle tgt v).rows.length = df.rows.length := by
  unfold DF.locSetVal
  split <;> simp

theorem locSetVal_hasCol (df : DF) (m : String) (needle : Val) (tgt : String)
    (v : Val) (x : String) :
    (df.locSetVal m needle tgt v).hasCol x ↔ (df.hasCol x ∨ x = tgt) := by
  unfold DF.locSetVal
  split
  · rename_i h
    constructor
    · exact Or.inl
    · rintro (hx | rfl)
      · exact hx
      · exact h
  · show x ∈ df.cols ++ [tgt] ↔ _
    simp [DF.hasCol]

theorem locSetVal_cell_ne (df : DF) {m : String} {needle : Val}
    {tgt c : String} {v : Val} (h : c ≠ tgt) (i : Nat) :
    (df.locSetVal m needle tgt v).cell i c = df.cell i c := by
  unfold DF.locSetVal
  split
  · apply cell_map_pointwise
    intro r
    split
    · exact getV_modifyVal_ne h _ r
    · rfl
  · exact cell_map_pointwise df _ _ i c
      (fun r => getV_append_single_ne h _ r)

theorem locSetVal_cell_tgt (df : DF) (m : String) (needle : Val) (tgt : String)
    (v : Val) (hWF : df.WF) (hne : needle ≠ .na) (i : Nat) :
    (df.locSetVal m needle tgt v).cell i tgt =
      if df.cell i m = needle then v else df.cell i tgt := by
  by_cases hi : i < df.rows.length
  · rw [df.cell_in_range i m hi, df.cell_in_range i tgt hi]
    have hmem := List.getElem_mem hi
    unfold DF.locSetVal
    split
    · rename_i htgt
      have hlen : i < (df.rows.map (fun (r : Row) =>
          if r.getV m = needle then Row.modifyVal tgt (fun _ => v) r else r)).length := by
        simpa using hi
      rw [DF.cell_in_range _ i tgt hlen]
      simp only [List.getElem_map]
      split
      · rw [getV_modifyVal_self,
          if_pos ((hWF.hasKey_iff hmem tgt).mpr htgt)]
      · rfl
    · rename_i htgt
      have hlen : i < (df.rows.map (fun (r : Row) =>
          r ++ [(tgt, if r.getV m = needle then v else .na)])).length := by
        simpa using hi
      rw [DF.cell_in_range _ i tgt hlen]
      simp only [List.getElem_map]
      rw [getV_append_single_self,
        if_neg (fun hk => htgt ((hWF.hasKey_iff hmem tgt).mp hk))]
      split
      · rfl
      · exact (getV_eq_na_of_not_hasKey
          (fun hk => htgt ((hWF.hasKey_iff hmem tgt).mp hk))).symm
  · push_neg at hi
    rw [DF.cell_out_of_range _ i tgt (by rwa [locSetVal_rows_length]),
      df.cell_out_of_range i m hi, df.cell_out_of_range i tgt hi,
      if_neg (fun hh => hne hh.symm)]

theorem locSetVal_WF (df : DF) (m : String) (needle : Val) (tgt : String)
    (v : Val) (hWF : df.WF) : (df.locSetVal m needle tgt v).WF := by
  unfold DF.locSetVal
  split
  · intro r hr
    simp only [List.mem_map] at hr
    obtain ⟨r0, hr0, rfl⟩ := hr
    simp only
    split
    · rw [keys_modifyVal]
      exact hWF r0 hr0
    · exact hWF r0 hr0
  · intro r hr
    simp only [List.mem_map] at hr
    obtain ⟨r0, hr0, rfl⟩ := hr
    simp [hWF r0 hr0]

/-! #### `mapCol`, `fillna`, `strTitle`, `applyUpperShort`, `astype` -/

theorem mapCol_eq_ok (df : DF) (c : String) (tbl : List (String × String))
    (hc : df.hasCol c) :
    df.mapCol c tbl = .ok (df.withModify c (mapVal tbl)) := by
  unfold DF.mapCol
  rw [if_pos hc]

theorem mapCol_ok_elim {df df' : DF} {c : String} {tbl : List (String × String)}
    (h : df.mapCol c tbl = .ok df') :
    df.hasCol c ∧ df' = df.withModify c (mapVal tbl) := by
  unfold DF.mapCol at h
  split at h
  · rename_i hc
    exact ⟨hc, (Except.ok.injEq .. ▸ h).symm⟩
  · exact absurd h (by simp)

theorem fillna_eq_ok (df : DF) (c : String) (v : Val) (hc : df.hasCol c) :
    df.fillna c v = .ok (df.withModify c (fillVal v)) := by
  unfold DF.fillna
  rw [if_pos hc]

theorem fillna_ok_elim {df df' : DF} {c : String} {v : Val}
    (h : df.fillna c v = .ok df') :
    df.hasCol c ∧ df' = df.withModify c (fillVal v) := by
  unfold DF.fillna at h
  split at h
  · rename_i hc
    exact ⟨hc, (Except.ok.injEq .. ▸ h).symm⟩
  · exact absurd h (by simp)

theorem strTitle_eq_ok (df : DF) (c : String) (hc : df.hasCol c) :
    df.strTitle c = .ok (df.withModify c titleVal) := by
  unfold DF.strTitle
  rw [if_pos hc]

theorem strTitle_ok_elim {df df' : DF} {c : String}
    (h : df.strTitle c = .ok df') :
    df.hasCol c ∧ df' = df.withModify c titleVal := by
  unfold DF.strTitle at h
  split at h
  · rename_i hc
    exact ⟨hc, (Except.ok.injEq .. ▸ h).symm⟩
  · exact absurd h (by simp)

theorem applyUpperShort_eq_ok (df : DF) (c : String) (hc : df.hasCol c)
    (hall : df.rows.all (fun r => (r.getV c).isStr) = true) :
    df.applyUpperShort c = .ok (df.withModify c upperShortVal) := by
  unfold DF.applyUpperShort
  rw [if_pos hc, if_pos hall]

theorem applyUpperShort_ok_elim {df df' : DF} {c : String}
    (h : df.applyUpperShort c = .ok df') :
    df.hasCol c ∧ df.rows.all (fun r => (r.getV c).isStr) = true ∧
      df' = df.withModify c upperShortVal := by
  unfold DF.applyUpperShort at h
  split at h
  · rename_i hc
    split at h
    · rename_i hall
      exact ⟨hc, hall, (Except.ok.injEq .. ▸ h).symm⟩
    · exact absurd h (by simp)
  · exact absurd h (by simp)

theorem astype_eq_ok (df : DF) (c : String) (coe : Val → Option Val)
    (hc : df.hasCol c)
    (hall : df.rows.all (fun r => (coe (r.getV c)).isSome) = true) :
    df.astype c coe = .ok (df.withModify c (fun v => (coe v).getD .na)) := by
  unfold DF.astype
  rw [if_pos hc, if_pos hall]

theorem astype_ok_elim {df df' : DF} {c : String} {coe : Val → Option Val}
    (h : df.astype c coe = .ok df') :
    df.hasCol c ∧ df.rows.all (fun r => (coe (r.getV c)).isSome) = true ∧
      df' = df.withModify c (fun v => (coe v).getD .na) := by
  unfold DF.astype at h
  split at h
  · rename_i hc
    split at h
    · rename_i hall
      exact ⟨hc, hall, (Except.ok.injEq .. ▸ h).symm⟩
    · exact absurd h (by simp)
  · exact absurd h (by simp)

theorem setConst_hasCol_ne {df : DF} {x c : String} (h : x ≠ c) (v : Val) :
    (df.setConst c v).hasCol x ↔ df.hasCol x := by
  rw [setConst_hasCol]
  simp [h]

theorem setConst_hasCol_self (df : DF) (c : String) (v : Val) :
    (df.setConst c v).hasCol c :=
  (setConst_hasCol df c v c).mpr (Or.inr rfl)

theorem locSetVal_hasCol_ne {df : DF} {m : String} {needle : Val}
    {tgt x : String} {v : Val} (h : x ≠ tgt) :
    (df.locSetVal m needle tgt v).hasCol x ↔ df.hasCol x := by
  rw [locSetVal_hasCol]
  simp [h]

theorem rename_hasCol_old_iff (df : DF) {o n : String} (h : o ≠ n) :
    (df.rename o n).hasCol o ↔ False :=
  iff_false_intro (rename_hasCol_not_old df h)

theorem locSetVal_hasCol_self (df : DF) (m : String) (needle : Val)
    (tgt : String) (v : Val) : (df.locSetVal m needle tgt v).hasCol tgt :=
  (locSetVal_hasCol df m needle tgt v tgt).mpr (Or.inr rfl)

/-! #### `Except.bind` plumbing -/

theorem bind_ok_elim {α β : Type} {e : Except String α}
    {f : α → Except String β} {b : β} (h : e.bind f = .ok b) :
    ∃ a, e = .ok a ∧ f a = .ok b := by
  cases e with
  | ok a => exact ⟨a, rfl, h⟩
  | error s => exact absurd h (by simp [Except.bind])

theorem ok_bind {α β : Type} (a : α) (f : α → Except String β) :
    (Except.ok a : Except String α).bind f = f a := rfl

theorem error_bind {α β : Type} (s : String) (f : α → Except String β) :
    (Except.error s : Except String α).bind f = .error s := rfl

/-! ### The per-column rules the normalizer implements, and its precondition -/

/-- Raw supplier column labels the normalizer reads (a missing one raises). -/
def rawColsN : List String :=
  ["MakeText", "BodyTypeText", "BodyColorText", "ConditionTypeText", "City",
   "FirstRegYear", "Km", "FirstRegMonth", "ConsumptionRatingText"]

/-- Column labels the normalizer creates, by assignment or by rename. -/
def newColsN : List String :=
  ["type", "carType", "color", "condition", "currency", "drive", "city",
   "country", "make", "manufacture_year", "mileage", "mileage_unit", "model",
   "model_variant", "price_on_request", "zip", "manufacture_month",
   "fuel_consumption_unit"]

/-- Precondition describing a reshaped supplier dataframe as the normalizer
receives it: well-formed, carrying the raw columns, not yet carrying any of
the output columns, make names being strings and the numeric-designated
columns holding convertible values (all true of the actual supplier feed). -/
def preN (df : DF) : Prop :=
  df.WF
  ∧ (∀ c ∈ rawColsN, df.hasCol c)
  ∧ (∀ c ∈ newColsN, ¬ df.hasCol c)
  ∧ ∀ i, i < df.rows.length →
      (df.cell i "MakeText").isStr = true
      ∧ (intCoerce? (df.cell i "FirstRegYear")).isSome = true
      ∧ (floatCoerce? (df.cell i "Km")).isSome = true
      ∧ (floatCoerce? (df.cell i "FirstRegMonth")).isSome = true

instance (df : DF) : Decidable (preN df) := by
  unfold preN
  infer_instance

/-- The non-vehicle override rule of lines 127-130: `type` is `Other` exactly
when the raw make is `HARLEY-DAVIDSON` or the raw body type is
`Sattelschlepper`, else `car`. -/
def typeRule (mk bt : Val) : Val :=
  if mk = .str "HARLEY-DAVIDSON" ∨ bt = .str "Sattelschlepper" then .str "Other"
  else .str "car"

/-- The body-style remap rule of lines 146-161: map through the fixed table,
unmapped values (and `NaN`) fall back to `Other`. -/
def carTypeRule (v : Val) : Val :=
  fillVal (.str "Other") (mapVal bodyTypeText_to_carType v)

/-- The color remap rule of lines 175-194. -/
def colorRule (v : Val) : Val :=
  fillVal (.str "Other") (mapVal bodyColorText_to_color v)

/-- The condition remap rule of lines 208-218: map through the fixed table;
there is no fallback (line 215 is commented out), unmapped values stay
missing. -/
def conditionRule (v : Val) : Val := mapVal conditionTypeText_to_condition v

/-- One literal make override (a `.loc` masked assignment of lines 257-266). -/
def makeStep (k t : String) (v : Val) : Val := if v = .str k then .str t else v

/-- The four literal make overrides of lines 257-266, as a lookup. -/
def makeOverrides (s : String) : String :=
  if s = "Bmw-Alpina" then "Alpina"
  else if s = "Mclaren" then "McLaren"
  else if s = "Mini" then "MINI"
  else if s = "RUF" then "Ruf"
  else s

/-- The complete make-normalization rule of lines 244-266 as implemented:
title-case the name, uppercase the whole name when the whole name is shorter
than 4 characters, then apply the literal overrides. -/
def makeRule (s : String) : String := makeOverrides (upperShort (pyTitle s))

/-- The casing rule as the spec sentence words it: title case, then every
token (maximal alphabetic run) shorter than 4 characters fully uppercased,
then the literal overrides. -/
def claimMakeRule (s : String) : String := makeOverrides (tokenUpper (pyTitle s))

theorem override_chain (u : String) :
    makeStep "RUF" "Ruf" (makeStep "Mini" "MINI" (makeStep "Mclaren" "McLaren"
      (makeStep "Bmw-Alpina" "Alpina" (.str u)))) = .str (makeOverrides u) := by
  by_cases h1 : u = "Bmw-Alpina"
  · subst h1; decide
  · by_cases h2 : u = "Mclaren"
    · subst h2; decide
    · by_cases h3 : u = "Mini"
      · subst h3; decide
      · by_cases h4 : u = "RUF"
        · subst h4; decide
        · simp [makeStep, makeOverrides, h1, h2, h3, h4]

theorem isStr_elim {v : Val} (h : v.isStr = true) : ∃ s, v = .str s := by
  cases v <;> simp [Val.isStr] at h ⊢

theorem isStr_titleVal (v : Val) : (titleVal v).isStr = v.isStr := by
  cases v <;> rfl

set_option maxHeartbeats 4000000 in
/-- Master specification of the normalizer on a well-formed reshaped supplier
dataframe: the run succeeds, keeps the row count, adds the constant columns,
consumes the raw `MakeText` column, and computes each remapped column by its
per-column rule read off the raw input cells. -/
theorem normalize_spec (df : DF) (h : preN df) :
    ∃ out, normalize_supplier_data df = .ok out
      ∧ out.rows.length = df.rows.length
      ∧ out.hasCol "currency"
      ∧ ¬ out.hasCol "MakeText"
      ∧ ∀ i, i < df.rows.length →
          out.cell i "type" = typeRule (df.cell i "MakeText") (df.cell i "BodyTypeText")
          ∧ out.cell i "carType" = carTypeRule (df.cell i "BodyTypeText")
          ∧ out.cell i "color" = colorRule (df.cell i "BodyColorText")
          ∧ out.cell i "condition" = conditionRule (df.cell i "ConditionTypeText")
          ∧ ∃ s, df.cell i "MakeText" = Val.str s
              ∧ out.cell i "make" = Val.str (makeRule s) := by
  obtain ⟨hWF0, hraw, hnew, hvals⟩ := h
  have hM : df.hasCol "MakeText" := hraw "MakeText" (by decide)
  have hB : df.hasCol "BodyTypeText" := hraw "BodyTypeText" (by decide)
  have hBC : df.hasCol "BodyColorText" := hraw "BodyColorText" (by decide)
  have hCT : df.hasCol "ConditionTypeText" := hraw "ConditionTypeText" (by decide)
  have hCI : df.hasCol "City" := hraw "City" (by decide)
  have hY : df.hasCol "FirstRegYear" := hraw "FirstRegYear" (by decide)
  have hK : df.hasCol "Km" := hraw "Km" (by decide)
  have hMO : df.hasCol "FirstRegMonth" := hraw "FirstRegMonth" (by decide)
  have hCR : df.hasCol "ConsumptionRatingText" := hraw "ConsumptionRatingText" (by decide)
  have hnCar : ¬ df.hasCol "carType" := hnew "carType" (by decide)
  have hnColor : ¬ df.hasCol "color" := hnew "color" (by decide)
  have hnCond : ¬ df.hasCol "condition" := hnew "condition" (by decide)
  have hnMake : ¬ df.hasCol "make" := hnew "make" (by decide)
  set df1 := df.setConst "type" (Val.str "car") with hdf1
  set df2 := df1.locSetVal "MakeText" (Val.str "HARLEY-DAVIDSON") "type" (Val.str "Other") with hdf2
  set df3 := df2.locSetVal "BodyTypeText" (Val.str "Sattelschlepper") "type" (Val.str "Other") with hdf3
  set df4 := df3.withModify "BodyTypeText" (mapVal bodyTypeText_to_carType) with hdf4
  set df5 := df4.withModify "BodyTypeText" (fillVal (Val.str "Other")) with hdf5
  set df6 := df5.rename "BodyTypeText" "carType" with hdf6
  set df7 := df6.withModify "BodyColorText" (mapVal bodyColorText_to_color) with hdf7
  set df8 := df7.withModify "BodyColorText" (fillVal (Val.str "Other")) with hdf8
  set df9 := df8.rename "BodyColorText" "color" with hdf9
  set df10 := df9.withModify "ConditionTypeText" (mapVal conditionTypeText_to_condition) with hdf10
  set df11 := df10.rename "ConditionTypeText" "condition" with hdf11
  set df12 := df11.setConst "currency" (Val.str "CHF") with hdf12
  set df13 := df12.setConst "drive" Val.na with hdf13
  set df14 := df13.rename "City" "city" with hdf14
  set df15 := df14.setConst "country" (Val.str "CH") with hdf15
  set df16 := df15.withModify "MakeText" titleVal with hdf16
  set df17 := df16.withModify "MakeText" upperShortVal with hdf17
  set df18 := df17.locSetVal "MakeText" (Val.str "Bmw-Alpina") "MakeText" (Val.str "Alpina") with hdf18
  set df19 := df18.locSetVal "MakeText" (Val.str "Mclaren") "MakeText" (Val.str "McLaren") with hdf19
  set df20 := df19.locSetVal "MakeText" (Val.str "Mini") "MakeText" (Val.str "MINI") with hdf20
  set df21 := df20.locSetVal "MakeText" (Val.str "RUF") "MakeText" (Val.str "Ruf") with hdf21
  set df22 := df21.rename "MakeText" "make" with hdf22
  set df23 := df22.withModify "FirstRegYear" (fun v => (intCoerce? v).getD Val.na) with hdf23
  set df24 := df23.rename "FirstRegYear" "manufacture_year" with hdf24
  set df25 := df24.withModify "Km" (fun v => (floatCoerce? v).getD Val.na) with hdf25
  set df26 := df25.rename "Km" "mileage" with hdf26
  set df27 := df26.setConst "mileage_unit" (Val.str "kilometer") with hdf27
  set df28 := df27.rename "ModelText" "model" with hdf28
  set df29 := df28.rename "ModelTypeText" "model_variant" with hdf29
  set df30 := df29.setConst "price_on_request" (Val.bool true) with hdf30
  set df31 := df30.setConst "zip" (Val.str "St. Gallen") with hdf31
  set df32 := df31.locSetVal "city" (Val.str "Basel") "zip" (Val.str "Basel-Stadt") with hdf32
  set df33 := df32.locSetVal "city" (Val.str "Porrentrury") "zip" (Val.str "Jura") with hdf33
  set df34 := df33.locSetVal "city" (Val.str "Safenwil") "zip" (Val.str "Aargau") with hdf34
  set df35 := df34.locSetVal "city" (Val.str "Sursee") "zip" (Val.str "Lucerne") with hdf35
  set df36 := df35.withModify "FirstRegMonth" (fun v => (floatCoerce? v).getD Val.na) with hdf36
  set df37 := df36.rename "FirstRegMonth" "manufacture_month" with hdf37
  set df38 := df37.setConst "fuel_consumption_unit" (Val.str "l_km_consumption") with hdf38
  set df39 := df38.locSetVal "ConsumptionRatingText" (Val.str "null") "fuel_consumption_unit" Val.na with hdf39
  have hWF1 : df1.WF := by
    rw [hdf1]
    exact setConst_WF df "type" (Val.str "car") hWF0
  have hWF2 : df2.WF := by
    rw [hdf2]
    exact locSetVal_WF df1 "MakeText" (Val.str "HARLEY-DAVIDSON") "type" (Val.str "Other") hWF1
  have hWF3 : df3.WF := by
    rw [hdf3]
    exact locSetVal_WF df2 "BodyTypeText" (Val.str "Sattelschlepper") "type" (Val.str "Other") hWF2
  have hWF4 : df4.WF := by
    rw [hdf4]
    exact withModify_WF df3 "BodyTypeText" (mapVal bodyTypeText_to_carType) hWF3
  have hWF5 : df5.WF := by
    rw [hdf5]
    exact withModify_WF df4 "BodyTypeText" (fillVal (Val.str "Other")) hWF4
  have hWF6 : df6.WF := by
    rw [hdf6]
    exact rename_WF df5 "BodyTypeText" "carType" hWF5
  have hWF7 : df7.WF := by
    rw [hdf7]
    exact withModify_WF df6 "BodyColorText" (mapVal bodyColorText_to_color) hWF6
  have hWF8 : df8.WF := by
    rw [hdf8]
    exact withModify_WF df7 "BodyColorText" (fillVal (Val.str "Other")) hWF7
  have hWF9 : df9.WF := by
    rw [hdf9]
    exact rename_WF df8 "BodyColorText" "color" hWF8
  have hWF10 : df10.WF := by
    rw [hdf10]
    exact withModify_WF df9 "ConditionTypeText" (mapVal conditionTypeText_to_condition) hWF9
  have hWF11 : df11.WF := by
    rw [hdf11]
    exact rename_WF df10 "ConditionTypeText" "condition" hWF10
  have hWF12 : df12.WF := by
    rw [hdf12]
    exact setConst_WF df11 "currency" (Val.str "CHF") hWF11
  have hWF13 : df13.WF := by
    rw [hdf13]
    exact setConst_WF df12 "drive" Val.na hWF12
  have hWF14 : df14.WF := by
    rw [hdf14]
    exact rename_WF df13 "City" "city" hWF13
  have hWF15 : df15.WF := by
    rw [hdf15]
    exact setConst_WF df14 "country" (Val.str "CH") hWF14
  have hWF16 : df16.WF := by
    rw [hdf16]
    exact withModify_WF df15 "MakeText" titleVal hWF15
  have hWF17 : df17.WF := by
    rw [hdf17]
    exact withModify_WF df16 "MakeText" upperShortVal hWF16
  have hWF18 : df18.WF := by
    rw [hdf18]
    exact locSetVal_WF df17 "MakeText" (Val.str "Bmw-Alpina") "MakeText" (Val.str "Alpina") hWF17
  have hWF19 : df19.WF := by
    rw [hdf19]
    exact locSetVal_WF df18 "MakeText" (Val.str "Mclaren") "MakeText" (Val.str "McLaren") hWF18
  have hWF20 : df20.WF := by
    rw [hdf20]
    exact locSetVal_WF df19 "MakeText" (Val.str "Mini") "MakeText" (Val.str "MINI") hWF19
  have hWF21 : df21.WF := by
    rw [hdf21]
    exact locSetVal_WF df20 "MakeText" (Val.str "RUF") "MakeText" (Val.str "Ruf") hWF20
  have hlen1 : df1.rows.length = df.rows.length := by
    rw [hdf1, setConst_rows_length]
  have hlen2 : df2.rows.length = df.rows.length := by
    rw [hdf2, locSetVal_rows_length, hlen1]
  have hlen3 : df3.rows.length = df.rows.length := by
    rw [hdf3, locSetVal_rows_length, hlen2]
  have hlen4 : df4.rows.length = df.rows.length := by
    rw [hdf4, withModify_rows_length, hlen3]
  have hlen5 : df5.rows.length = df.rows.length := by
    rw [hdf5, withModify_rows_length, hlen4]
  have hlen6 : df6.rows.length = df.rows.length := by
    rw [hdf6, rename_rows_length, hlen5]
  have hlen7 : df7.rows.length = df.rows.length := by
    rw [hdf7, withModify_rows_length, hlen6]
  have hlen8 : df8.rows.length = df.rows.length := by
    rw [hdf8, withModify_rows_length, hlen7]
  have hlen9 : df9.rows.length = df.rows.length := by
    rw [hdf9, rename_rows_length, hlen8]
  have hlen10 : df10.rows.length = df.rows.length := by
    rw [hdf10, withModify_rows_length, hlen9]
  have hlen11 : df11.rows.length = df.rows.length := by
    rw [hdf11, rename_rows_length, hlen10]
  have hlen12 : df12.rows.length = df.rows.length := by
    rw [hdf12, setConst_rows_length, hlen11]
  have hlen13 : df13.rows.length = df.rows.length := by
    rw [hdf13, setConst_rows_length, hlen12]
  have hlen14 : df14.rows.length = df.rows.length := by
    rw [hdf14, rename_rows_length, hlen13]
  have hlen15 : df15.rows.length = df.rows.length := by
    rw [hdf15, setConst_rows_length, hlen14]
  have hlen16 : df16.rows.length = df.rows.length := by
    rw [hdf16, withModify_rows_length, hlen15]
  have hlen17 : df17.rows.length = df.rows.length := by
    rw [hdf17, withModify_rows_length, hlen16]
  have hlen18 : df18.rows.length = df.rows.length := by
    rw [hdf18, locSetVal_rows_length, hlen17]
  have hlen19 : df19.rows.length = df.rows.length := by
    rw [hdf19, locSetVal_rows_length, hlen18]
  have hlen20 : df20.rows.length = df.rows.length := by
    rw [hdf20, locSetVal_rows_length, hlen19]
  have hlen21 : df21.rows.length = df.rows.length := by
    rw [hdf21, locSetVal_rows_length, hlen20]
  have hlen22 : df22.rows.length = df.rows.length := by
    rw [hdf22, rename_rows_length, hlen21]
  have hlen23 : df23.rows.length = df.rows.length := by
    rw [hdf23, withModify_rows_length, hlen22]
  have hlen24 : df24.rows.length = df.rows.length := by
    rw [hdf24, rename_rows_length, hlen23]
  have hlen25 : df25.rows.length = df.rows.length := by
    rw [hdf25, withModify_rows_length, hlen24]
  have hlen26 : df26.rows.length = df.rows.length := by
    rw [hdf26, rename_rows_length, hlen25]
  have hlen27 : df27.rows.length = df.rows.length := by
    rw [hdf27, setConst_rows_length, hlen26]
  have hlen28 : df28.rows.length = df.rows.length := by
    rw [hdf28, rename_rows_length, hlen27]
  have hlen29 : df29.rows.length = df.rows.length := by
    rw [hdf29, rename_rows_length, hlen28]
  have hlen30 : df30.rows.length = df.rows.length := by
    rw [hdf30, setConst_rows_length, hlen29]
  have hlen31 : df31.rows.length = df.rows.length := by
    rw [hdf31, setConst_rows_length, hlen30]
  have hlen32 : df32.rows.length = df.rows.length := by
    rw [hdf32, locSetVal_rows_length, hlen31]
  have hlen33 : df33.rows.length = df.rows.length := by
    rw [hdf33, locSetVal_rows_length, hlen32]
  have hlen34 : df34.rows.length = df.rows.length := by
    rw [hdf34, locSetVal_rows_length, hlen33]
  have hlen35 : df35.rows.length = df.rows.length := by
    rw [hdf35, locSetVal_rows_length, hlen34]
  have hlen36 : df36.rows.length = df.rows.length := by
    rw [hdf36, withModify_rows_length, hlen35]
  have hlen37 : df37.rows.length = df.rows.length := by
    rw [hdf37, rename_rows_length, hlen36]
  have hlen38 : df38.rows.length = df.rows.length := by
    rw [hdf38, setConst_rows_length, hlen37]
  have hlen39 : df39.rows.length = df.rows.length := by
    rw [hdf39, locSetVal_rows_length, hlen38]
  have c2M : df1.hasCol "MakeText" := by
    simp (disch := decide) only [hdf1, setConst_hasCol_ne, locSetVal_hasCol_ne, locSetVal_hasCol_self, withModify_hasCol, rename_hasCol_ne, rename_hasCol_new]
    exact hM
  have c3B : df2.hasCol "BodyTypeText" := by
    simp (disch := decide) only [hdf2, hdf1, setConst_hasCol_ne, locSetVal_hasCol_ne, locSetVal_hasCol_self, withModify_hasCol, rename_hasCol_ne, rename_hasCol_new]
    exact hB
  have c4B : df3.hasCol "BodyTypeText" := by
    simp (disch := decide) only [hdf3, hdf2, hdf1, setConst_hasCol_ne, locSetVal_hasCol_ne, locSetVal_hasCol_self, withModify_hasCol, rename_hasCol_ne, rename_hasCol_new]
    exact hB
  have c5B : df4.hasCol "BodyTypeText" := by
    simp (disch := decide) only [hdf4, hdf3, hdf2, hdf1, setConst_hasCol_ne, locSetVal_hasCol_ne, locSetVal_hasCol_self, withModify_hasCol, rename_hasCol_ne, rename_hasCol_new]
    exact hB
  have c7BC : df6.hasCol "BodyColorText" := by
    simp (disch := decide) only [hdf6, hdf5, hdf4, hdf3, hdf2, hdf1, setConst_hasCol_ne, locSetVal_hasCol_ne, locSetVal_hasCol_self, withModify_hasCol, rename_hasCol_ne, rename_hasCol_new]
    exact hBC
  have c8BC : df7.hasCol "BodyColorText" := by
    simp (disch := decide) only [hdf7, hdf6, hdf5, hdf4, hdf3, hdf2, hdf1, setConst_hasCol_ne, locSetVal_hasCol_ne, locSetVal_hasCol_self, withModify_hasCol, rename_hasCol_ne, rename_hasCol_new]
    exact hBC
  have c10CT : df9.hasCol "ConditionTypeText" := by
    simp (disch := decide) only [hdf9, hdf8, hdf7, hdf6, hdf5, hdf4, hdf3, hdf2, hdf1, setConst_hasCol_ne, locSetVal_hasCol_ne, locSetVal_hasCol_self, withModify_hasCol, rename_hasCol_ne, rename_hasCol_new]
    exact hCT
  have c16M : df15.hasCol "MakeText" := by
    simp (disch := decide) only [hdf15, hdf14, hdf13, hdf12, hdf11, hdf10, hdf9, hdf8, hdf7, hdf6, hdf5, hdf4, hdf3, hdf2, hdf1, setConst_hasCol_ne, locSetVal_hasCol_ne, locSetVal_hasCol_self, withModify_hasCol, rename_hasCol_ne, rename_hasCol_new]
    exact hM
  have c17M : df16.hasCol "MakeText" := by
    simp (disch := decide) only [hdf16, hdf15, hdf14, hdf13, hdf12, hdf11, hdf10, hdf9, hdf8, hdf7, hdf6, hdf5, hdf4, hdf3, hdf2, hdf1, setConst_hasCol_ne, locSetVal_hasCol_ne, locSetVal_hasCol_self, withModify_hasCol, rename_hasCol_ne, rename_hasCol_new]
    exact hM
  have c18M : df17.hasCol "MakeText" := by
    simp (disch := decide) only [hdf17, hdf16, hdf15, hdf14, hdf13, hdf12, hdf11, hdf10, hdf9, hdf8, hdf7, hdf6, hdf5, hdf4, hdf3, hdf2, hdf1, setConst_hasCol_ne, locSetVal_hasCol_ne, locSetVal_hasCol_self, withModify_hasCol, rename_hasCol_ne, rename_hasCol_new]
    exact hM
  have c19M : df18.hasCol "MakeText" := by
    simp (disch := decide) only [hdf18, hdf17, hdf16, hdf15, hdf14, hdf13, hdf12, hdf11, hdf10, hdf9, hdf8, hdf7, hdf6, hdf5, hdf4, hdf3, hdf2, hdf1, setConst_hasCol_ne, locSetVal_hasCol_ne, locSetVal_hasCol_self, withModify_hasCol, rename_hasCol_ne, rename_hasCol_new]
  have c20M : df19.hasCol "MakeText" := by
    simp (disch := decide) only [hdf19, hdf18, hdf17, hdf16, hdf15, hdf14, hdf13, hdf12, hdf11, hdf10, hdf9, hdf8, hdf7, hdf6, hdf5, hdf4, hdf3, hdf2, hdf1, setConst_hasCol_ne, locSetVal_hasCol_ne, locSetVal_hasCol_self, withModify_hasCol, rename_hasCol_ne, rename_hasCol_new]
  have c21M : df20.hasCol "MakeText" := by
    simp (disch := decide) only [hdf20, hdf19, hdf18, hdf17, hdf16, hdf15, hdf14, hdf13, hdf12, hdf11, hdf10, hdf9, hdf8, hdf7, hdf6, hdf5, hdf4, hdf3, hdf2, hdf1, setConst_hasCol_ne, locSetVal_hasCol_ne, locSetVal_hasCol_self, withModify_hasCol, rename_hasCol_ne, rename_hasCol_new]
  have c23Y : df22.hasCol "FirstRegYear" := by
    simp (disch := decide) only [hdf22, hdf21, hdf20, hdf19, hdf18, hdf17, hdf16, hdf15, hdf14, hdf13, hdf12, hdf11, hdf10, hdf9, hdf8, hdf7, hdf6, hdf5, hdf4, hdf3, hdf2, hdf1, setConst_hasCol_ne, locSetVal_hasCol_ne, locSetVal_hasCol_self, withModify_hasCol, rename_hasCol_ne, rename_hasCol_new]
    exact hY
  have c25K : df24.hasCol "Km" := by
    simp (disch := decide) only [hdf24, hdf23, hdf22, hdf21, hdf20, hdf19, hdf18, hdf17, hdf16, hdf15, hdf14, hdf13, hdf12, hdf11, hdf10, hdf9, hdf8, hdf7, hdf6, hdf5, hdf4, hdf3, hdf2, hdf1, setConst_hasCol_ne, locSetVal_hasCol_ne, locSetVal_hasCol_self, withModify_hasCol, rename_hasCol_ne, rename_hasCol_new]
    exact hK
  have c32city : df31.hasCol "city" := by
    simp (disch := decide) only [hdf31, hdf30, hdf29, hdf28, hdf27, hdf26, hdf25, hdf24, hdf23, hdf22, hdf21, hdf20, hdf19, hdf18, hdf17, hdf16, hdf15, hdf14, hdf13, hdf12, hdf11, hdf10, hdf9, hdf8, hdf7, hdf6, hdf5, hdf4, hdf3, hdf2, hdf1, setConst_hasCol_ne, locSetVal_hasCol_ne, locSetVal_hasCol_self, withModify_hasCol, rename_hasCol_ne, rename_hasCol_new]
    exact Or.inl hCI
  have c33city : df32.hasCol "city" := by
    simp (disch := decide) only [hdf32, hdf31, hdf30, hdf29, hdf28, hdf27, hdf26, hdf25, hdf24, hdf23, hdf22, hdf21, hdf20, hdf19, hdf18, hdf17, hdf16, hdf15, hdf14, hdf13, hdf12, hdf11, hdf10, hdf9, hdf8, hdf7, hdf6, hdf5, hdf4, hdf3, hdf2, hdf1, setConst_hasCol_ne, locSetVal_hasCol_ne, locSetVal_hasCol_self, withModify_hasCol, rename_hasCol_ne, rename_hasCol_new]
    exact Or.inl hCI
  have c34city : df33.hasCol "city" := by
    simp (disch := decide) only [hdf33, hdf32, hdf31, hdf30, hdf29, hdf28, hdf27, hdf26, hdf25, hdf24, hdf23, hdf22, hdf21, hdf20, hdf19, hdf18, hdf17, hdf16, hdf15, hdf14, hdf13, hdf12, hdf11, hdf10, hdf9, hdf8, hdf7, hdf6, hdf5, hdf4, hdf3, hdf2, hdf1, setConst_hasCol_ne, locSetVal_hasCol_ne, locSetVal_hasCol_self, withModify_hasCol, rename_hasCol_ne, rename_hasCol_new]
    exact Or.inl hCI
  have c35city : df34.hasCol "city" := by
    simp (disch := decide) only [hdf34, hdf33, hdf32, hdf31, hdf30, hdf29, hdf28, hdf27, hdf26, hdf25, hdf24, hdf23, hdf22, hdf21, hdf20, hdf19, hdf18, hdf17, hdf16, hdf15, hdf14, hdf13, hdf12, hdf11, hdf10, hdf9, hdf8, hdf7, hdf6, hdf5, hdf4, hdf3, hdf2, hdf1, setConst_hasCol_ne, locSetVal_hasCol_ne, locSetVal_hasCol_self, withModify_hasCol, rename_hasCol_ne, rename_hasCol_new]
    exact Or.inl hCI
  have c36MO : df35.hasCol "FirstRegMonth" := by
    simp (disch := decide) only [hdf35, hdf34, hdf33, hdf32, hdf31, hdf30, hdf29, hdf28, hdf27, hdf26, hdf25, hdf24, hdf23, hdf22, hdf21, hdf20, hdf19, hdf18, hdf17, hdf16, hdf15, hdf14, hdf13, hdf12, hdf11, hdf10, hdf9, hdf8, hdf7, hdf6, hdf5, hdf4, hdf3, hdf2, hdf1, setConst_hasCol_ne, locSetVal_hasCol_ne, locSetVal_hasCol_self, withModify_hasCol, rename_hasCol_ne, rename_hasCol_new]
    exact hMO
  have c39CR : df38.hasCol "ConsumptionRatingText" := by
    simp (disch := decide) only [hdf38, hdf37, hdf36, hdf35, hdf34, hdf33, hdf32, hdf31, hdf30, hdf29, hdf28, hdf27, hdf26, hdf25, hdf24, hdf23, hdf22, hdf21, hdf20, hdf19, hdf18, hdf17, hdf16, hdf15, hdf14, hdf13, hdf12, hdf11, hdf10, hdf9, hdf8, hdf7, hdf6, hdf5, hdf4, hdf3, hdf2, hdf1, setConst_hasCol_ne, locSetVal_hasCol_ne, locSetVal_hasCol_self, withModify_hasCol, rename_hasCol_ne, rename_hasCol_new]
    exact hCR
  have fresh5car : ¬ df5.hasCol "carType" := by
    simp (disch := decide) only [hdf5, hdf4, hdf3, hdf2, hdf1, setConst_hasCol_ne, locSetVal_hasCol_ne, locSetVal_hasCol_self, withModify_hasCol, rename_hasCol_ne, rename_hasCol_new]
    exact hnCar
  have fresh8col : ¬ df8.hasCol "color" := by
    simp (disch := decide) only [hdf8, hdf7, hdf6, hdf5, hdf4, hdf3, hdf2, hdf1, setConst_hasCol_ne, locSetVal_hasCol_ne, locSetVal_hasCol_self, withModify_hasCol, rename_hasCol_ne, rename_hasCol_new]
    exact hnColor
  have fresh10cond : ¬ df10.hasCol "condition" := by
    simp (disch := decide) only [hdf10, hdf9, hdf8, hdf7, hdf6, hdf5, hdf4, hdf3, hdf2, hdf1, setConst_hasCol_ne, locSetVal_hasCol_ne, locSetVal_hasCol_self, withModify_hasCol, rename_hasCol_ne, rename_hasCol_new]
    exact hnCond
  have fresh21make : ¬ df21.hasCol "make" := by
    simp (disch := decide) only [hdf21, hdf20, hdf19, hdf18, hdf17, hdf16, hdf15, hdf14, hdf13, hdf12, hdf11, hdf10, hdf9, hdf8, hdf7, hdf6, hdf5, hdf4, hdf3, hdf2, hdf1, setConst_hasCol_ne, locSetVal_hasCol_ne, locSetVal_hasCol_self, withModify_hasCol, rename_hasCol_ne, rename_hasCol_new]
    exact hnMake
  have hcur : df39.hasCol "currency" := by
    simp (disch := decide) only [hdf39, hdf38, hdf37, hdf36, hdf35, hdf34, hdf33, hdf32, hdf31, hdf30, hdf29, hdf28, hdf27, hdf26, hdf25, hdf24, hdf23, hdf22, hdf21, hdf20, hdf19, hdf18, hdf17, hdf16, hdf15, hdf14, hdf13, setConst_hasCol_ne, locSetVal_hasCol_ne, locSetVal_hasCol_self, withModify_hasCol, rename_hasCol_ne, rename_hasCol_new]
    rw [hdf12]
    exact setConst_hasCol_self df11 "currency" (Val.str "CHF")
  have hnoM : ¬ df39.hasCol "MakeText" := by
    simp (disch := decide) only [hdf39, hdf38, hdf37, hdf36, hdf35, hdf34, hdf33, hdf32, hdf31, hdf30, hdf29, hdf28, hdf27, hdf26, hdf25, hdf24, hdf23, hdf22, setConst_hasCol_ne, locSetVal_hasCol_ne, locSetVal_hasCol_self, withModify_hasCol, rename_hasCol_ne, rename_hasCol_new, rename_hasCol_old_iff, not_false_eq_true]
  have e15M : ∀ i, df15.cell i "MakeText" = df.cell i "MakeText" := by
    intro i
    simp (disch := decide) only [hdf15, hdf14, hdf13, hdf12, hdf11, hdf10, hdf9, hdf8, hdf7, hdf6, hdf5, hdf4, hdf3, hdf2, hdf1, locSetVal_cell_ne, setConst_cell_ne, rename_cell_ne, withModify_cell_ne]
  have e16M : ∀ i, i < df.rows.length →
      df16.cell i "MakeText" = titleVal (df.cell i "MakeText") := by
    intro i hi
    rw [hdf16, withModify_cell_self df15 "MakeText" titleVal hWF15 c16M i
      (by rw [hlen15]; exact hi), e15M i]
  have hall17 : df16.rows.all (fun r => (r.getV "MakeText").isStr) = true := by
    refine (all_rows_iff_cells df16 Val.isStr "MakeText").mpr ?_
    intro i hi
    rw [hlen16] at hi
    rw [e16M i hi, isStr_titleVal]
    exact (hvals i hi).1
  have e22Y : ∀ i, df22.cell i "FirstRegYear" = df.cell i "FirstRegYear" := by
    intro i
    simp (disch := decide) only [hdf22, hdf21, hdf20, hdf19, hdf18, hdf17, hdf16, hdf15, hdf14, hdf13, hdf12, hdf11, hdf10, hdf9, hdf8, hdf7, hdf6, hdf5, hdf4, hdf3, hdf2, hdf1, locSetVal_cell_ne, setConst_cell_ne, rename_cell_ne, withModify_cell_ne]
  have hall23 : df22.rows.all
      (fun r => (intCoerce? (r.getV "FirstRegYear")).isSome) = true := by
    refine (all_rows_iff_cells df22 (fun v => (intCoerce? v).isSome) "FirstRegYear").mpr ?_
    intro i hi
    rw [hlen22] at hi
    rw [e22Y i]
    exact (hvals i hi).2.1
  have e24K : ∀ i, df24.cell i "Km" = df.cell i "Km" := by
    intro i
    simp (disch := decide) only [hdf24, hdf23, hdf22, hdf21, hdf20, hdf19, hdf18, hdf17, hdf16, hdf15, hdf14, hdf13, hdf12, hdf11, hdf10, hdf9, hdf8, hdf7, hdf6, hdf5, hdf4, hdf3, hdf2, hdf1, locSetVal_cell_ne, setConst_cell_ne, rename_cell_ne, withModify_cell_ne]
  have hall25 : df24.rows.all
      (fun r => (floatCoerce? (r.getV "Km")).isSome) = true := by
    refine (all_rows_iff_cells df24 (fun v => (floatCoerce? v).isSome) "Km").mpr ?_
    intro i hi
    rw [hlen24] at hi
    rw [e24K i]
    exact (hvals i hi).2.2.1
  have e35MO : ∀ i, df35.cell i "FirstRegMonth" = df.cell i "FirstRegMonth" := by
    intro i
    simp (disch := decide) only [hdf35, hdf34, hdf33, hdf32, hdf31, hdf30, hdf29, hdf28, hdf27, hdf26, hdf25, hdf24, hdf23, hdf22, hdf21, hdf20, hdf19, hdf18, hdf17, hdf16, hdf15, hdf14, hdf13, hdf12, hdf11, hdf10, hdf9, hdf8, hdf7, hdf6, hdf5, hdf4, hdf3, hdf2, hdf1, locSetVal_cell_ne, setConst_cell_ne, rename_cell_ne, withModify_cell_ne]
  have hall36 : df35.rows.all
      (fun r => (floatCoerce? (r.getV "FirstRegMonth")).isSome) = true := by
    refine (all_rows_iff_cells df35 (fun v => (floatCoerce? v).isSome) "FirstRegMonth").mpr ?_
    intro i hi
    rw [hlen35] at hi
    rw [e35MO i]
    exact (hvals i hi).2.2.2
  have hok2 : df1.locSet "MakeText" (Val.str "HARLEY-DAVIDSON") "type" (Val.str "Other") = .ok df2 := by
    rw [hdf2]
    exact locSet_eq_ok df1 "MakeText" (Val.str "HARLEY-DAVIDSON") "type" (Val.str "Other") c2M
  have hok3 : df2.locSet "BodyTypeText" (Val.str "Sattelschlepper") "type" (Val.str "Other") = .ok df3 := by
    rw [hdf3]
    exact locSet_eq_ok df2 "BodyTypeText" (Val.str "Sattelschlepper") "type" (Val.str "Other") c3B
  have hok4 : df3.mapCol "BodyTypeText" bodyTypeText_to_carType = .ok df4 := by
    rw [hdf4]
    exact mapCol_eq_ok df3 "BodyTypeText" bodyTypeText_to_carType c4B
  have hok5 : df4.fillna "BodyTypeText" (Val.str "Other") = .ok df5 := by
    rw [hdf5]
    exact fillna_eq_ok df4 "BodyTypeText" (Val.str "Other") c5B
  have hok7 : df6.mapCol "BodyColorText" bodyColorText_to_color = .ok df7 := by
    rw [hdf7]
    exact mapCol_eq_ok df6 "BodyColorText" bodyColorText_to_color c7BC
  have hok8 : df7.fillna "BodyColorText" (Val.str "Other") = .ok df8 := by
    rw [hdf8]
    exact fillna_eq_ok df7 "BodyColorText" (Val.str "Other") c8BC
  have hok10 : df9.mapCol "ConditionTypeText" conditionTypeText_to_condition = .ok df10 := by
    rw [hdf10]
    exact mapCol_eq_ok df9 "ConditionTypeText" conditionTypeText_to_condition c10CT
  have hok16 : df15.strTitle "MakeText" = .ok df16 := by
    rw [hdf16]
    exact strTitle_eq_ok df15 "MakeText" c16M
  have hok17 : df16.applyUpperShort "MakeText" = .ok df17 := by
    rw [hdf17]
    exact applyUpperShort_eq_ok df16 "MakeText" c17M hall17
  have hok18 : df17.locSet "MakeText" (Val.str "Bmw-Alpina") "MakeText" (Val.str "Alpina") = .ok df18 := by
    rw [hdf18]
    exact locSet_eq_ok df17 "MakeText" (Val.str "Bmw-Alpina") "MakeText" (Val.str "Alpina") c18M
  have hok19 : df18.locSet "MakeText" (Val.str "Mclaren") "MakeText" (Val.str "McLaren") = .ok df19 := by
    rw [hdf19]
    exact locSet_eq_ok df18 "MakeText" (Val.str "Mclaren") "MakeText" (Val.str "McLaren") c19M
  have hok20 : df19.locSet "MakeText" (Val.str "Mini") "MakeText" (Val.str "MINI") = .ok df20 := by
    rw [hdf20]
    exact locSet_eq_ok df19 "MakeText" (Val.str "Mini") "MakeText" (Val.str "MINI") c20M
  have hok21 : df20.locSet "MakeText" (Val.str "RUF") "MakeText" (Val.str "Ruf") = .ok df21 := by
    rw [hdf21]
    exact locSet_eq_ok df20 "MakeText" (Val.str "RUF") "MakeText" (Val.str "Ruf") c21M
  have hok23 : df22.astype "FirstRegYear" intCoerce? = .ok df23 := by
    rw [hdf23]
    exact astype_eq_ok df22 "FirstRegYear" intCoerce? c23Y hall23
  have hok25 : df24.astype "Km" floatCoerce? = .ok df25 := by
    rw [hdf25]
    exact astype_eq_ok df24 "Km" floatCoerce? c25K hall25
  have hok32 : df31.locSet "city" (Val.str "Basel") "zip" (Val.str "Basel-Stadt") = .ok df32 := by
    rw [hdf32]
    exact locSet_eq_ok df31 "city" (Val.str "Basel") "zip" (Val.str "Basel-Stadt") c32city
  have hok33 : df32.locSet "city" (Val.str "Porrentrury") "zip" (Val.str "Jura") = .ok df33 := by
    rw [hdf33]
    exact locSet_eq_ok df32 "city" (Val.str "Porrentrury") "zip" (Val.str "Jura") c33city
  have hok34 : df33.locSet "city" (Val.str "Safenwil") "zip" (Val.str "Aargau") = .ok df34 := by
    rw [hdf34]
    exact locSet_eq_ok df33 "city" (Val.str "Safenwil") "zip" (Val.str "Aargau") c34city
  have hok35 : df34.locSet "city" (Val.str "Sursee") "zip" (Val.str "Lucerne") = .ok df35 := by
    rw [hdf35]
    exact locSet_eq_ok df34 "city" (Val.str "Sursee") "zip" (Val.str "Lucerne") c35city
  have hok36 : df35.astype "FirstRegMonth" floatCoerce? = .ok df36 := by
    rw [hdf36]
    exact astype_eq_ok df35 "FirstRegMonth" floatCoerce? c36MO hall36
  have hok39 : df38.locSet "ConsumptionRatingText" (Val.str "null") "fuel_consumption_unit" Val.na = .ok df39 := by
    rw [hdf39]
    exact locSet_eq_ok df38 "ConsumptionRatingText" (Val.str "null") "fuel_consumption_unit" Val.na c39CR
  have hrun : normalize_supplier_data df = Except.ok df39 := by
    simp only [normalize_supplier_data]
    rw [← hdf1]
    rw [hok2, ok_bind]
    rw [hok3, ok_bind]
    rw [hok4, ok_bind]
    rw [hok5, ok_bind]
    rw [← hdf6]
    rw [hok7, ok_bind]
    rw [hok8, ok_bind]
    rw [← hdf9]
    rw [hok10, ok_bind]
    rw [← hdf11, ← hdf12, ← hdf13, ← hdf14, ← hdf15]
    rw [hok16, ok_bind]
    rw [hok17, ok_bind]
    rw [hok18, ok_bind]
    rw [hok19, ok_bind]
    rw [hok20, ok_bind]
    rw [hok21, ok_bind]
    rw [← hdf22]
    rw [hok23, ok_bind]
    rw [← hdf24]
    rw [hok25, ok_bind]
    rw [← hdf26, ← hdf27, ← hdf28, ← hdf29, ← hdf30, ← hdf31]
    rw [hok32, ok_bind]
    rw [hok33, ok_bind]
    rw [hok34, ok_bind]
    rw [hok35, ok_bind]
    rw [hok36, ok_bind]
    rw [← hdf37, ← hdf38]
    rw [hok39]
  have eT1 : ∀ i, i < df.rows.length → df1.cell i "type" = Val.str "car" := by
    intro i hi
    rw [hdf1]
    exact setConst_cell_self df "type" (Val.str "car") hWF0 i hi
  have eT1M : ∀ i, df1.cell i "MakeText" = df.cell i "MakeText" := by
    intro i
    simp (disch := decide) only [hdf1, setConst_cell_ne]
  have eT2 : ∀ i, i < df.rows.length → df2.cell i "type" =
      (if df.cell i "MakeText" = Val.str "HARLEY-DAVIDSON" then Val.str "Other"
       else Val.str "car") := by
    intro i hi
    rw [hdf2, locSetVal_cell_tgt df1 "MakeText" (Val.str "HARLEY-DAVIDSON")
      "type" (Val.str "Other") hWF1 (by decide) i, eT1M i, eT1 i hi]
  have eB2 : ∀ i, df2.cell i "BodyTypeText" = df.cell i "BodyTypeText" := by
    intro i
    simp (disch := decide) only [hdf2, hdf1, locSetVal_cell_ne, setConst_cell_ne]
  have eT3 : ∀ i, i < df.rows.length → df3.cell i "type" =
      typeRule (df.cell i "MakeText") (df.cell i "BodyTypeText") := by
    intro i hi
    rw [hdf3, locSetVal_cell_tgt df2 "BodyTypeText" (Val.str "Sattelschlepper")
      "type" (Val.str "Other") hWF2 (by decide) i, eB2 i, eT2 i hi]
    unfold typeRule
    by_cases hb : df.cell i "BodyTypeText" = Val.str "Sattelschlepper" <;>
      by_cases hm : df.cell i "MakeText" = Val.str "HARLEY-DAVIDSON" <;>
      simp [hb, hm]
  have eTfin : ∀ i, i < df.rows.length → df39.cell i "type" =
      typeRule (df.cell i "MakeText") (df.cell i "BodyTypeText") := by
    intro i hi
    have hcoll : df39.cell i "type" = df3.cell i "type" := by
      simp (disch := decide) only [hdf39, hdf38, hdf37, hdf36, hdf35, hdf34, hdf33, hdf32, hdf31, hdf30, hdf29, hdf28, hdf27, hdf26, hdf25, hdf24, hdf23, hdf22, hdf21, hdf20, hdf19, hdf18, hdf17, hdf16, hdf15, hdf14, hdf13, hdf12, hdf11, hdf10, hdf9, hdf8, hdf7, hdf6, hdf5, hdf4, locSetVal_cell_ne, setConst_cell_ne, rename_cell_ne, withModify_cell_ne]
    rw [hcoll, eT3 i hi]
  have eB3 : ∀ i, df3.cell i "BodyTypeText" = df.cell i "BodyTypeText" := by
    intro i
    simp (disch := decide) only [hdf3, hdf2, hdf1, locSetVal_cell_ne, setConst_cell_ne]
  have eB4 : ∀ i, i < df.rows.length → df4.cell i "BodyTypeText" =
      mapVal bodyTypeText_to_carType (df.cell i "BodyTypeText") := by
    intro i hi
    rw [hdf4, withModify_cell_self df3 "BodyTypeText"
      (mapVal bodyTypeText_to_carType) hWF3 c4B i (by rw [hlen3]; exact hi), eB3 i]
  have eB5 : ∀ i, i < df.rows.length → df5.cell i "BodyTypeText" =
      carTypeRule (df.cell i "BodyTypeText") := by
    intro i hi
    rw [hdf5, withModify_cell_self df4 "BodyTypeText" (fillVal (Val.str "Other"))
      hWF4 c5B i (by rw [hlen4]; exact hi), eB4 i hi]
    rfl
  have eCar6 : ∀ i, i < df.rows.length → df6.cell i "carType" =
      carTypeRule (df.cell i "BodyTypeText") := by
    intro i hi
    rw [hdf6, rename_cell_new df5 "BodyTypeText" "carType" hWF5 fresh5car i, eB5 i hi]
  have eCarFin : ∀ i, i < df.rows.length → df39.cell i "carType" =
      carTypeRule (df.cell i "BodyTypeText") := by
    intro i hi
    have hcoll : df39.cell i "carType" = df6.cell i "carType" := by
      simp (disch := decide) only [hdf39, hdf38, hdf37, hdf36, hdf35, hdf34, hdf33, hdf32, hdf31, hdf30, hdf29, hdf28, hdf27, hdf26, hdf25, hdf24, hdf23, hdf22, hdf21, hdf20, hdf19, hdf18, hdf17, hdf16, hdf15, hdf14, hdf13, hdf12, hdf11, hdf10, hdf9, hdf8, hdf7, locSetVal_cell_ne, setConst_cell_ne, rename_cell_ne, withModify_cell_ne]
    rw [hcoll, eCar6 i hi]
  have eC6 : ∀ i, df6.cell i "BodyColorText" = df.cell i "BodyColorText" := by
    intro i
    simp (disch := decide) only [hdf6, hdf5, hdf4, hdf3, hdf2, hdf1, locSetVal_cell_ne, setConst_cell_ne, rename_cell_ne, withModify_cell_ne]
  have eC7 : ∀ i, i < df.rows.length → df7.cell i "BodyColorText" =
      mapVal bodyColorText_to_color (df.cell i "BodyColorText") := by
    intro i hi
    rw [hdf7, withModify_cell_self df6 "BodyColorText"
      (mapVal bodyColorText_to_color) hWF6 c7BC i (by rw [hlen6]; exact hi), eC6 i]
  have eC8 : ∀ i, i < df.rows.length → df8.cell i "BodyColorText" =
      colorRule (df.cell i "BodyColorText") := by
    intro i hi
    rw [hdf8, withModify_cell_self df7 "BodyColorText" (fillVal (Val.str "Other"))
      hWF7 c8BC i (by rw [hlen7]; exact hi), eC7 i hi]
    rfl
  have eCol9 : ∀ i, i < df.rows.length → df9.cell i "color" =
      colorRule (df.cell i "BodyColorText") := by
    intro i hi
    rw [hdf9, rename_cell_new df8 "BodyColorText" "color" hWF8 fresh8col i, eC8 i hi]
  have eColFin : ∀ i, i < df.rows.length → df39.cell i "color" =
      colorRule (df.cell i "BodyColorText") := by
    intro i hi
    have hcoll : df39.cell i "color" = df9.cell i "color" := by
      simp (disch := decide) only [hdf39, hdf38, hdf37, hdf36, hdf35, hdf34, hdf33, hdf32, hdf31, hdf30, hdf29, hdf28, hdf27, hdf26, hdf25, hdf24, hdf23, hdf22, hdf21, hdf20, hdf19, hdf18, hdf17, hdf16, hdf15, hdf14, hdf13, hdf12, hdf11, hdf10, locSetVal_cell_ne, setConst_cell_ne, rename_cell_ne, withModify_cell_ne]
    rw [hcoll, eCol9 i hi]
  have eCT9 : ∀ i, df9.cell i "ConditionTypeText" = df.cell i "ConditionTypeText" := by
    intro i
    simp (disch := decide) only [hdf9, hdf8, hdf7, hdf6, hdf5, hdf4, hdf3, hdf2, hdf1, locSetVal_cell_ne, setConst_cell_ne, rename_cell_ne, withModify_cell_ne]
  have eCT10 : ∀ i, i < df.rows.length → df10.cell i "ConditionTypeText" =
      conditionRule (df.cell i "ConditionTypeText") := by
    intro i hi
    rw [hdf10, withModify_cell_self df9 "ConditionTypeText"
      (mapVal conditionTypeText_to_condition) hWF9 c10CT i
      (by rw [hlen9]; exact hi), eCT9 i]
    rfl
  have eCond11 : ∀ i, i < df.rows.length → df11.cell i "condition" =
      conditionRule (df.cell i "ConditionTypeText") := by
    intro i hi
    rw [hdf11, rename_cell_new df10 "ConditionTypeText" "condition" hWF10
      fresh10cond i, eCT10 i hi]
  have eCondFin : ∀ i, i < df.rows.length → df39.cell i "condition" =
      conditionRule (df.cell i "ConditionTypeText") := by
    intro i hi
    have hcoll : df39.cell i "condition" = df11.cell i "condition" := by
      simp (disch := decide) only [hdf39, hdf38, hdf37, hdf36, hdf35, hdf34, hdf33, hdf32, hdf31, hdf30, hdf29, hdf28, hdf27, hdf26, hdf25, hdf24, hdf23, hdf22, hdf21, hdf20, hdf19, hdf18, hdf17, hdf16, hdf15, hdf14, hdf13, hdf12, locSetVal_cell_ne, setConst_cell_ne, rename_cell_ne, withModify_cell_ne]
    rw [hcoll, eCond11 i hi]
  have e17M : ∀ i, i < df.rows.length → df17.cell i "MakeText" =
      upperShortVal (titleVal (df.cell i "MakeText")) := by
    intro i hi
    rw [hdf17, withModify_cell_self df16 "MakeText" upperShortVal hWF16 c17M i
      (by rw [hlen16]; exact hi), e16M i hi]
  have e18M : ∀ i, df18.cell i "MakeText" =
      makeStep "Bmw-Alpina" "Alpina" (df17.cell i "MakeText") := by
    intro i
    rw [hdf18, locSetVal_cell_tgt df17 "MakeText" (Val.str "Bmw-Alpina")
      "MakeText" (Val.str "Alpina") hWF17 (by decide) i]
    rfl
  have e19M : ∀ i, df19.cell i "MakeText" =
      makeStep "Mclaren" "McLaren" (df18.cell i "MakeText") := by
    intro i
    rw [hdf19, locSetVal_cell_tgt df18 "MakeText" (Val.str "Mclaren")
      "MakeText" (Val.str "McLaren") hWF18 (by decide) i]
    rfl
  have e20M : ∀ i, df20.cell i "MakeText" =
      makeStep "Mini" "MINI" (df19.cell i "MakeText") := by
    intro i
    rw [hdf20, locSetVal_cell_tgt df19 "MakeText" (Val.str "Mini")
      "MakeText" (Val.str "MINI") hWF19 (by decide) i]
    rfl
  have e21M : ∀ i, df21.cell i "MakeText" =
      makeStep "RUF" "Ruf" (df20.cell i "MakeText") := by
    intro i
    rw [hdf21, locSetVal_cell_tgt df20 "MakeText" (Val.str "RUF")
      "MakeText" (Val.str "Ruf") hWF20 (by decide) i]
    rfl
  have eMakeFin : ∀ i, i < df.rows.length →
      ∃ s, df.cell i "MakeText" = Val.str s
        ∧ df39.cell i "make" = Val.str (makeRule s) := by
    intro i hi
    obtain ⟨s, hs⟩ := isStr_elim (hvals i hi).1
    refine ⟨s, hs, ?_⟩
    have hcoll : df39.cell i "make" = df22.cell i "make" := by
      simp (disch := decide) only [hdf39, hdf38, hdf37, hdf36, hdf35, hdf34, hdf33, hdf32, hdf31, hdf30, hdf29, hdf28, hdf27, hdf26, hdf25, hdf24, hdf23, locSetVal_cell_ne, setConst_cell_ne, rename_cell_ne, withModify_cell_ne]
    rw [hcoll, hdf22, rename_cell_new df21 "MakeText" "make" hWF21 fresh21make i,
      e21M i, e20M i, e19M i, e18M i, e17M i hi, hs]
    show makeStep "RUF" "Ruf" (makeStep "Mini" "MINI" (makeStep "Mclaren"
      "McLaren" (makeStep "Bmw-Alpina" "Alpina"
        (Val.str (upperShort (pyTitle s)))))) = Val.str (makeRule s)
    rw [override_chain]
    rfl
  exact ⟨df39, hrun, hlen39, hcur, hnoM, fun i hi =>
    ⟨eTfin i hi, eCarFin i hi, eColFin i hi, eCondFin i hi, eMakeFin i hi⟩⟩


/-! ### Support lemmas for the claims -/

theorem lookupStr_mem :
    ∀ (tbl : List (String × String)) (s t : String),
      lookupStr tbl s = some t → t ∈ tbl.map Prod.snd := by
  intro tbl
  induction tbl with
  | nil => intro s t h; cases h
  | cons hd tl ih =>
    intro s t h
    obtain ⟨k, u⟩ := hd
    unfold lookupStr at h
    by_cases hk : k = s
    · rw [if_pos hk] at h
      simp only [Option.some.injEq] at h
      subst h
      exact List.mem_cons_self _ _
    · rw [if_neg hk] at h
      exact List.mem_cons_of_mem _ (ih s t h)

theorem mapVal_cases (tbl : List (String × String)) (v : Val) :
    mapVal tbl v ∈ (tbl.map Prod.snd).map Val.str ∨ mapVal tbl v = .na := by
  cases v with
  | str s =>
    cases hl : lookupStr tbl s with
    | some t =>
      left
      have hv : mapVal tbl (.str s) = .str t := by
        simp only [mapVal]
        rw [hl]
      rw [hv]
      exact List.mem_map_of_mem Val.str (lookupStr_mem tbl s t hl)
    | none =>
      right
      simp only [mapVal]
      rw [hl]
  | int n => right; rfl
  | rat q => right; rfl
  | bool b => right; rfl
  | na => right; rfl

/-- A `map`-then-`fillna "Other"` column is a canonical table value or the
fallback, and never missing. -/
theorem fillna_rule_cases (tbl : List (String × String)) (v : Val) :
    (fillVal (Val.str "Other") (mapVal tbl v) ∈ (tbl.map Prod.snd).map Val.str
      ∨ fillVal (Val.str "Other") (mapVal tbl v) = .str "Other")
    ∧ fillVal (Val.str "Other") (mapVal tbl v) ≠ .na := by
  rcases mapVal_cases tbl v with h | h
  · obtain ⟨t, hmem, ht⟩ := List.mem_map.mp h
    rw [← ht]
    have hfv : fillVal (Val.str "Other") (Val.str t) = Val.str t := by
      unfold fillVal
      rw [if_neg (by simp)]
    rw [hfv]
    exact ⟨Or.inl (ht ▸ h), by simp⟩
  · rw [h]
    have hfv : fillVal (Val.str "Other") Val.na = Val.str "Other" := rfl
    rw [hfv]
    exact ⟨Or.inr rfl, by simp⟩

/-- The condition rule maps into the table values or yields `NaN`. -/
theorem conditionRule_cases (v : Val) :
    conditionRule v ∈ (conditionTypeText_to_condition.map Prod.snd).map Val.str
      ∨ conditionRule v = .na :=
  mapVal_cases conditionTypeText_to_condition v

theorem getV_map_keyed (f : String → Val) :
    ∀ (cols : List String) (c : String), c ∈ cols →
      Row.getV (cols.map (fun x => (x, f x))) c = f c := by
  intro cols
  induction cols with
  | nil => intro c h; cases h
  | cons hd tl ih =>
    intro c h
    simp only [List.map_cons]
    by_cases hc : hd = c
    · subst hc
      simp [Row.getV]
    · rcases List.mem_cons.mp h with h1 | h1
      · exact absurd h1.symm hc
      · simp [Row.getV, hc, ih c h1]

theorem getV_reindexRow (cols : List String) (r : Row) (c : String)
    (h : c ∈ cols) : (reindexRow cols r).getV c = r.getV c :=
  getV_map_keyed (fun x => r.getV x) cols c h

/-- When the second frame carries exactly the first frame's labels, the
`concat` column union is the first frame's labels. -/
theorem concatCols_eq_left (d1 d2 : DF) (h2 : d2.cols = d1.cols) :
    concatCols d1 d2 = d1.cols := by
  unfold concatCols
  rw [h2]
  have hfil : d1.cols.filter (fun c => !decide (c ∈ d1.cols)) = [] := by
    rw [List.filter_eq_nil_iff]
    intro a ha
    simp [ha]
  rw [hfil, List.append_nil]

/-- The projection step succeeds exactly when every requested label exists. -/
theorem projectCols_eq_ok (df : DF) (names : List String)
    (h : ∀ c ∈ names, df.hasCol c) :
    projectCols df names = .ok ⟨names, df.rows.map (reindexRow names)⟩ := by
  unfold projectCols
  rw [if_pos h]

/-- Success shape of the integrator. -/
theorem integrate_eq_ok (step2_df customer_df : DF) (names : List String)
    (h : ∀ c ∈ names, step2_df.hasCol c) :
    integrate_supplier_data step2_df customer_df names =
      .ok (concatIgnoreIndex customer_df
        ⟨names, step2_df.rows.map (reindexRow names)⟩) := by
  unfold integrate_supplier_data
  rw [projectCols_eq_ok step2_df names h, ok_bind]


/-! ### Failure behavior of the normalizer -/

theorem locSet_err {df : DF} {m : String} (needle : Val) (tgt : String)
    (v : Val) (h : ¬ df.hasCol m) :
    df.locSet m needle tgt v = .error ("KeyError: " ++ m) := by
  unfold DF.locSet
  rw [if_neg h]

/-- A dataframe without the raw `MakeText` column makes the normalizer abort
at its first `.loc` mask (line 128), a `KeyError`. -/
theorem normalize_err_of_no_MakeText (x : DF) (h : ¬ x.hasCol "MakeText") :
    ∃ e, normalize_supplier_data x = .error e := by
  refine ⟨"KeyError: " ++ "MakeText", ?_⟩
  have h1 : ¬ (x.setConst "type" (Val.str "car")).hasCol "MakeText" := by
    simp (disch := decide) only [setConst_hasCol_ne]
    exact h
  simp only [normalize_supplier_data]
  rw [locSet_err (Val.str "HARLEY-DAVIDSON") "type" (Val.str "Other") h1,
    error_bind]

/-- A successful normalization leaves no `MakeText` column behind: the rename
at line 269 consumes it and nothing reintroduces it. -/
theorem normalize_ok_no_MakeText {df out : DF}
    (h : normalize_supplier_data df = .ok out) : ¬ out.hasCol "MakeText" := by
  simp only [normalize_supplier_data] at h
  obtain ⟨a2, -, h⟩ := bind_ok_elim h
  obtain ⟨a3, -, h⟩ := bind_ok_elim h
  obtain ⟨a4, -, h⟩ := bind_ok_elim h
  obtain ⟨a5, -, h⟩ := bind_ok_elim h
  obtain ⟨a7, -, h⟩ := bind_ok_elim h
  obtain ⟨a8, -, h⟩ := bind_ok_elim h
  obtain ⟨a10, -, h⟩ := bind_ok_elim h
  obtain ⟨a16, -, h⟩ := bind_ok_elim h
  obtain ⟨a17, -, h⟩ := bind_ok_elim h
  obtain ⟨a18, -, h⟩ := bind_ok_elim h
  obtain ⟨a19, -, h⟩ := bind_ok_elim h
  obtain ⟨a20, -, h⟩ := bind_ok_elim h
  obtain ⟨a21, -, h⟩ := bind_ok_elim h
  obtain ⟨a23, hok23, h⟩ := bind_ok_elim h
  obtain ⟨-, -, ha23⟩ := astype_ok_elim hok23
  obtain ⟨a25, hok25, h⟩ := bind_ok_elim h
  obtain ⟨-, -, ha25⟩ := astype_ok_elim hok25
  obtain ⟨a32, hok32, h⟩ := bind_ok_elim h
  obtain ⟨-, ha32⟩ := locSet_ok_elim hok32
  obtain ⟨a33, hok33, h⟩ := bind_ok_elim h
  obtain ⟨-, ha33⟩ := locSet_ok_elim hok33
  obtain ⟨a34, hok34, h⟩ := bind_ok_elim h
  obtain ⟨-, ha34⟩ := locSet_ok_elim hok34
  obtain ⟨a35, hok35, h⟩ := bind_ok_elim h
  obtain ⟨-, ha35⟩ := locSet_ok_elim hok35
  obtain ⟨a36, hok36, h⟩ := bind_ok_elim h
  obtain ⟨-, -, ha36⟩ := astype_ok_elim hok36
  obtain ⟨-, hout⟩ := locSet_ok_elim h
  simp (disch := decide) only [hout, ha36, ha35, ha34, ha33, ha32, ha25, ha23,
    setConst_hasCol_ne, locSetVal_hasCol_ne, withModify_hasCol,
    rename_hasCol_ne, rename_hasCol_old_iff, not_false_eq_true]


set_option maxHeartbeats 1000000 in
/-- A non-convertible value in one of the numeric-designated columns makes
the normalizer abort: the corresponding `astype` (lines 273, 280, 315) raises
before any result is produced. -/
theorem normalize_err_of_bad_numeric (df : DF) (i : Nat)
    (hi : i < df.rows.length)
    (hbad : (intCoerce? (df.cell i "FirstRegYear")).isSome = false
      ∨ (floatCoerce? (df.cell i "Km")).isSome = false
      ∨ (floatCoerce? (df.cell i "FirstRegMonth")).isSome = false) :
    ∃ e, normalize_supplier_data df = .error e := by
  cases hnorm : normalize_supplier_data df with
  | error e => exact ⟨e, rfl⟩
  | ok out =>
    exfalso
    simp only [normalize_supplier_data] at hnorm
    obtain ⟨a2, hok2, hnorm⟩ := bind_ok_elim hnorm
    obtain ⟨-, ha2⟩ := locSet_ok_elim hok2
    obtain ⟨a3, hok3, hnorm⟩ := bind_ok_elim hnorm
    obtain ⟨-, ha3⟩ := locSet_ok_elim hok3
    obtain ⟨a4, hok4, hnorm⟩ := bind_ok_elim hnorm
    obtain ⟨-, ha4⟩ := mapCol_ok_elim hok4
    obtain ⟨a5, hok5, hnorm⟩ := bind_ok_elim hnorm
    obtain ⟨-, ha5⟩ := fillna_ok_elim hok5
    obtain ⟨a7, hok7, hnorm⟩ := bind_ok_elim hnorm
    obtain ⟨-, ha7⟩ := mapCol_ok_elim hok7
    obtain ⟨a8, hok8, hnorm⟩ := bind_ok_elim hnorm
    obtain ⟨-, ha8⟩ := fillna_ok_elim hok8
    obtain ⟨a10, hok10, hnorm⟩ := bind_ok_elim hnorm
    obtain ⟨-, ha10⟩ := mapCol_ok_elim hok10
    obtain ⟨a16, hok16, hnorm⟩ := bind_ok_elim hnorm
    obtain ⟨-, ha16⟩ := strTitle_ok_elim hok16
    obtain ⟨a17, hok17, hnorm⟩ := bind_ok_elim hnorm
    obtain ⟨-, -, ha17⟩ := applyUpperShort_ok_elim hok17
    obtain ⟨a18, hok18, hnorm⟩ := bind_ok_elim hnorm
    obtain ⟨-, ha18⟩ := locSet_ok_elim hok18
    obtain ⟨a19, hok19, hnorm⟩ := bind_ok_elim hnorm
    obtain ⟨-, ha19⟩ := locSet_ok_elim hok19
    obtain ⟨a20, hok20, hnorm⟩ := bind_ok_elim hnorm
    obtain ⟨-, ha20⟩ := locSet_ok_elim hok20
    obtain ⟨a21, hok21, hnorm⟩ := bind_ok_elim hnorm
    obtain ⟨-, ha21⟩ := locSet_ok_elim hok21
    obtain ⟨a23, hok23, hnorm⟩ := bind_ok_elim hnorm
    obtain ⟨-, hall23, ha23⟩ := astype_ok_elim hok23
    obtain ⟨a25, hok25, hnorm⟩ := bind_ok_elim hnorm
    obtain ⟨-, hall25, ha25⟩ := astype_ok_elim hok25
    obtain ⟨a32, hok32, hnorm⟩ := bind_ok_elim hnorm
    obtain ⟨-, ha32⟩ := locSet_ok_elim hok32
    obtain ⟨a33, hok33, hnorm⟩ := bind_ok_elim hnorm
    obtain ⟨-, ha33⟩ := locSet_ok_elim hok33
    obtain ⟨a34, hok34, hnorm⟩ := bind_ok_elim hnorm
    obtain ⟨-, ha34⟩ := locSet_ok_elim hok34
    obtain ⟨a35, hok35, hnorm⟩ := bind_ok_elim hnorm
    obtain ⟨-, ha35⟩ := locSet_ok_elim hok35
    obtain ⟨a36, hok36, hnorm⟩ := bind_ok_elim hnorm
    obtain ⟨-, hall36, -⟩ := astype_ok_elim hok36
    rcases hbad with hb | hb | hb
    · have hl : (a21.rename "MakeText" "make").rows.length = df.rows.length := by
        simp only [ha21, ha20, ha19, ha18, ha17, ha16, ha10, ha8, ha7, ha5,
          ha4, ha3, ha2, rename_rows_length, setConst_rows_length,
          locSetVal_rows_length, withModify_rows_length]
      have hc := (all_rows_iff_cells (a21.rename "MakeText" "make")
          (fun v => (intCoerce? v).isSome) "FirstRegYear").mp hall23 i
          (by rw [hl]; exact hi)
      have hcell : (a21.rename "MakeText" "make").cell i "FirstRegYear"
          = df.cell i "FirstRegYear" := by
        simp (disch := decide) only [ha21, ha20, ha19, ha18, ha17, ha16, ha10,
          ha8, ha7, ha5, ha4, ha3, ha2, locSetVal_cell_ne, setConst_cell_ne,
          rename_cell_ne, withModify_cell_ne]
      rw [hcell] at hc
      rw [hc] at hb
      simp at hb
    · have hl : (a23.rename "FirstRegYear" "manufacture_year").rows.length
          = df.rows.length := by
        simp only [ha23, ha21, ha20, ha19, ha18, ha17, ha16, ha10, ha8, ha7,
          ha5, ha4, ha3, ha2, rename_rows_length, setConst_rows_length,
          locSetVal_rows_length, withModify_rows_length]
      have hc := (all_rows_iff_cells
          (a23.rename "FirstRegYear" "manufacture_year")
          (fun v => (floatCoerce? v).isSome) "Km").mp hall25 i
          (by rw [hl]; exact hi)
      have hcell : (a23.rename "FirstRegYear" "manufacture_year").cell i "Km"
          = df.cell i "Km" := by
        simp (disch := decide) only [ha23, ha21, ha20, ha19, ha18, ha17, ha16,
          ha10, ha8, ha7, ha5, ha4, ha3, ha2, locSetVal_cell_ne,
          setConst_cell_ne, rename_cell_ne, withModify_cell_ne]
      rw [hcell] at hc
      rw [hc] at hb
      simp at hb
    · have hl : a35.rows.length = df.rows.length := by
        simp only [ha35, ha34, ha33, ha32, ha25, ha23, ha21, ha20, ha19, ha18,
          ha17, ha16, ha10, ha8, ha7, ha5, ha4, ha3, ha2, rename_rows_length,
          setConst_rows_length, locSetVal_rows_length, withModify_rows_length]
      have hc := (all_rows_iff_cells a35
          (fun v => (floatCoerce? v).isSome) "FirstRegMonth").mp hall36 i
          (by rw [hl]; exact hi)
      have hcell : a35.cell i "FirstRegMonth" = df.cell i "FirstRegMonth" := by
        simp (disch := decide) only [ha35, ha34, ha33, ha32, ha25, ha23, ha21,
          ha20, ha19, ha18, ha17, ha16, ha10, ha8, ha7, ha5, ha4, ha3, ha2,
          locSetVal_cell_ne, setConst_cell_ne, rename_cell_ne,
          withModify_cell_ne]
      rw [hcell] at hc
      rw [hc] at hb
      simp at hb


/-! ### Cell behavior of the vertical concatenation -/

theorem concat_cell_left (d1 d2 : DF) (i : Nat) (c : String)
    (hi : i < d1.rows.length) (hc : c ∈ concatCols d1 d2) :
    (concatIgnoreIndex d1 d2).cell i c = d1.cell i c := by
  have h1 : i < (d1.rows.map (reindexRow (concatCols d1 d2))).length := by
    simpa using hi
  unfold concatIgnoreIndex DF.cell
  rw [List.getElem?_append, if_pos h1, List.getElem?_map]
  cases hr : d1.rows[i]? with
  | none => rfl
  | some r =>
    exact getV_reindexRow _ _ _ hc

theorem concat_cell_right (d1 d2 : DF) (j : Nat) (c : String)
    (_hj : j < d2.rows.length) (hc : c ∈ concatCols d1 d2) :
    (concatIgnoreIndex d1 d2).cell (d1.rows.length + j) c = d2.cell j c := by
  have h1 : ¬ (d1.rows.length + j <
      (d1.rows.map (reindexRow (concatCols d1 d2))).length) := by
    simp only [List.length_map]
    omega
  unfold concatIgnoreIndex DF.cell
  rw [List.getElem?_append, if_neg h1]
  simp only [List.length_map, Nat.add_sub_cancel_left, List.getElem?_map]
  cases hr : d2.rows[j]? with
  | none => rfl
  | some r =>
    exact getV_reindexRow _ _ _ hc

theorem concat_rows_length (d1 d2 : DF) :
    (concatIgnoreIndex d1 d2).rows.length = d1.rows.length + d2.rows.length := by
  unfold concatIgnoreIndex
  simp


/-! ### Concrete dataframes used by witnesses and counterexamples -/

/-- A one-row reshaped supplier dataframe with ordinary values. -/
def dfW : DF :=
  ⟨rawColsN,
   [[("MakeText", Val.str "bmw"), ("BodyTypeText", Val.str "Limousine"),
     ("BodyColorText", Val.str "rot"), ("ConditionTypeText", Val.str "Occasion"),
     ("City", Val.str "Zuzwil"), ("FirstRegYear", Val.str "1999"),
     ("Km", Val.str "43000"), ("FirstRegMonth", Val.str "4"),
     ("ConsumptionRatingText", Val.str "null")]]⟩

/-- As `dfW` but with the two-token raw make `bmw-alpina` (present in the
actual supplier feed as `BMW-Alpina`). -/
def dfC1 : DF :=
  ⟨rawColsN,
   [[("MakeText", Val.str "bmw-alpina"), ("BodyTypeText", Val.str "Limousine"),
     ("BodyColorText", Val.str "rot"), ("ConditionTypeText", Val.str "Occasion"),
     ("City", Val.str "Zuzwil"), ("FirstRegYear", Val.str "1999"),
     ("Km", Val.str "43000"), ("FirstRegMonth", Val.str "4"),
     ("ConsumptionRatingText", Val.str "null")]]⟩

/-- As `dfW` but with a non-numeric registration year. -/
def dfBad : DF :=
  ⟨rawColsN,
   [[("MakeText", Val.str "bmw"), ("BodyTypeText", Val.str "Limousine"),
     ("BodyColorText", Val.str "rot"), ("ConditionTypeText", Val.str "Occasion"),
     ("City", Val.str "Zuzwil"), ("FirstRegYear", Val.str "unknown"),
     ("Km", Val.str "43000"), ("FirstRegMonth", Val.str "4"),
     ("ConsumptionRatingText", Val.str "null")]]⟩

/-- The normalized form of `dfW`. -/
def normOutW : DF :=
  match normalize_supplier_data dfW with
  | .ok d => d
  | .error _ => ⟨[], []⟩

/-- A small target (customer) dataframe. -/
def custW : DF :=
  ⟨["make", "type"], [[("make", Val.str "Audi"), ("type", Val.str "car")]]⟩

/-- A small normalized supplier dataframe with an extra column. -/
def suppW : DF :=
  ⟨["make", "type", "extra"],
   [[("make", Val.str "BMW"), ("type", Val.str "car"),
     ("extra", Val.int 1)]]⟩

/-- Three long-format records: two attributes of one car, one of another. -/
def recsW : List SupplierRecord :=
  [⟨"1", "BMW", "t", "tf", "m", "mt", "Seats", Val.str "2"⟩,
   ⟨"1", "BMW", "t", "tf", "m", "mt", "Doors", Val.str "3"⟩,
   ⟨"2", "Audi", "t", "tf", "m", "mt", "Seats", Val.str "5"⟩]

/-- Long-format records with a duplicated (identity, attribute) pair. -/
def recsDup : List SupplierRecord :=
  [⟨"1", "BMW", "t", "tf", "m", "mt", "Seats", Val.str "2"⟩,
   ⟨"1", "BMW", "t", "tf", "m", "mt", "Seats", Val.str "4"⟩]

/-! ### The claims -/

/-- Claim C1, counterexample.  The claim describes the casing rule as: title
case, then render fully uppercase ANY RESULTING TOKEN shorter than 4
characters, then apply the literal overrides.  The code (lines 253-254)
instead uppercases the WHOLE name only when the whole name is shorter than 4
characters.  At raw make `"bmw-alpina"` the claimed per-token rule produces
`"BMW-Alpina"` (token `Bmw` is 3 characters), while the code produces
`"Bmw-Alpina"` and then the literal override at line 257 turns it into
`"Alpina"`; the two disagree. -/
theorem claim_C1_counterexample :
    claimMakeRule "bmw-alpina" = "BMW-Alpina"
    ∧ (normalize_supplier_data dfC1).map (fun out => out.cell 0 "make")
        = .ok (Val.str "Alpina")
    ∧ ("BMW-Alpina" : String) ≠ "Alpina" := by
  refine ⟨by decide, by decide, by decide⟩

/-- Claim C1, amended: for every input row, the make is normalized by title
casing, then uppercasing the WHOLE name when the whole name is shorter than 4
characters, and finally the fixed literal overrides (`makeRule`); the listed
examples mercedes-benz → Mercedes-Benz, bmw → BMW, Mini → MINI and
Mclaren → McLaren all follow. -/
theorem claim_C1 (df : DF) (h : preN df) (i : Nat) (hi : i < df.rows.length) :
    ∃ out s, normalize_supplier_data df = .ok out
      ∧ df.cell i "MakeText" = Val.str s
      ∧ out.cell i "make" = Val.str (makeRule s) := by
  obtain ⟨out, hrun, -, -, -, hcells⟩ := normalize_spec df h
  obtain ⟨s, hs, hm⟩ := (hcells i hi).2.2.2.2
  exact ⟨out, s, hrun, hs, hm⟩

theorem claim_C1_witness :
    preN dfW ∧ 0 < dfW.rows.length ∧
      ∃ out s, normalize_supplier_data dfW = .ok out
        ∧ dfW.cell 0 "MakeText" = Val.str s
        ∧ out.cell 0 "make" = Val.str (makeRule s) :=
  ⟨by decide, by decide, claim_C1 dfW (by decide) 0 (by decide)⟩

/-- Claim C2: after normalization each remapped category cell is a canonical
mapping-table value or the fallback `Other`; `type` is always `car` or
`Other`; `carType` and `color` are additionally never missing; `condition`
may be missing exactly where its rule (whose `fillna` is commented out)
itself produces null, i.e. on values outside the mapping table. -/
theorem claim_C2 (df : DF) (h : preN df) (i : Nat) (hi : i < df.rows.length) :
    ∃ out, normalize_supplier_data df = .ok out
      ∧ (out.cell i "type" = Val.str "car" ∨ out.cell i "type" = Val.str "Other")
      ∧ (out.cell i "carType" ∈ (bodyTypeText_to_carType.map Prod.snd).map Val.str
          ∨ out.cell i "carType" = Val.str "Other")
      ∧ out.cell i "carType" ≠ Val.na
      ∧ (out.cell i "color" ∈ (bodyColorText_to_color.map Prod.snd).map Val.str
          ∨ out.cell i "color" = Val.str "Other")
      ∧ out.cell i "color" ≠ Val.na
      ∧ (out.cell i "condition" ∈ (conditionTypeText_to_condition.map Prod.snd).map Val.str
          ∨ (out.cell i "condition" = Val.na
              ∧ conditionRule (df.cell i "ConditionTypeText") = Val.na)) := by
  obtain ⟨out, hrun, -, -, -, hcells⟩ := normalize_spec df h
  obtain ⟨hty, hcar, hcol, hcond, -⟩ := hcells i hi
  refine ⟨out, hrun, ?_, ?_, ?_, ?_, ?_, ?_⟩
  · rw [hty]
    unfold typeRule
    split
    · exact Or.inr rfl
    · exact Or.inl rfl
  · rw [hcar]
    exact (fillna_rule_cases bodyTypeText_to_carType _).1
  · rw [hcar]
    exact (fillna_rule_cases bodyTypeText_to_carType _).2
  · rw [hcol]
    exact (fillna_rule_cases bodyColorText_to_color _).1
  · rw [hcol]
    exact (fillna_rule_cases bodyColorText_to_color _).2
  · rw [hcond]
    rcases conditionRule_cases (df.cell i "ConditionTypeText") with hc | hc
    · exact Or.inl hc
    · exact Or.inr ⟨hc, hc⟩

theorem claim_C2_witness :
    preN dfW ∧ 0 < dfW.rows.length ∧
      ∃ out, normalize_supplier_data dfW = .ok out
        ∧ (out.cell 0 "type" = Val.str "car" ∨ out.cell 0 "type" = Val.str "Other")
        ∧ (out.cell 0 "carType" ∈ (bodyTypeText_to_carType.map Prod.snd).map Val.str
            ∨ out.cell 0 "carType" = Val.str "Other")
        ∧ out.cell 0 "carType" ≠ Val.na
        ∧ (out.cell 0 "color" ∈ (bodyColorText_to_color.map Prod.snd).map Val.str
            ∨ out.cell 0 "color" = Val.str "Other")
        ∧ out.cell 0 "color" ≠ Val.na
        ∧ (out.cell 0 "condition" ∈ (conditionTypeText_to_condition.map Prod.snd).map Val.str
            ∨ (out.cell 0 "condition" = Val.na
                ∧ conditionRule (dfW.cell 0 "ConditionTypeText") = Val.na)) :=
  ⟨by decide, by decide, claim_C2 dfW (by decide) 0 (by decide)⟩

/-- Claim C3, counterexample.  Every mutating statement of
`normalize_supplier_data` acts in place on the caller's dataframe through the
aliased parameter (`inplace=True` renames and `fillna`, column and `.loc`
assignments) and the function returns that same object
(`normalizeWithInputState` pairs the return value with the final state of the
argument).  On the concrete input `dfW` the run succeeds and the final state
differs from the original input, so the dataset object passed in is NOT
unchanged. -/
theorem claim_C3_counterexample :
    normalizeWithInputState dfW = .ok (normOutW, normOutW)
    ∧ normOutW ≠ dfW := by
  refine ⟨by decide, by decide⟩

/-- Claim C3, amended: the reshaper and integrator build fresh dataframes,
but the normalizer updates its argument in place and returns that same
object; after a successful run the caller's dataframe equals the normalized
output, which differs from the original input (the constant columns such as
`currency` were added), so callers needing the original must copy first—as
`run.py` lines 67 and 83 do. -/
theorem claim_C3 (df : DF) (h : preN df) :
    ∃ out, normalizeWithInputState df = .ok (out, out) ∧ out ≠ df := by
  obtain ⟨out, hrun, -, hcur, -, -⟩ := normalize_spec df h
  refine ⟨out, ?_, ?_⟩
  · unfold normalizeWithInputState
    rw [hrun]
    rfl
  · intro heq
    have hncur : ¬ df.hasCol "currency" := h.2.2.1 "currency" (by decide)
    rw [heq] at hcur
    exact hncur hcur

theorem claim_C3_witness :
    preN dfW ∧
      ∃ out, normalizeWithInputState dfW = .ok (out, out) ∧ out ≠ dfW :=
  ⟨by decide, claim_C3 dfW (by decide)⟩

/-- Claim C4: the classification column `type` is `Other` exactly when the
raw make equals `HARLEY-DAVIDSON` or the raw body type equals
`Sattelschlepper` (each condition alone suffices, and both together), and
`car` otherwise; the predicate reads the raw `MakeText`/`BodyTypeText` cells
of the input, before the category remap overwrites `BodyTypeText`. -/
theorem claim_C4 (df : DF) (h : preN df) (i : Nat) (hi : i < df.rows.length) :
    ∃ out, normalize_supplier_data df = .ok out
      ∧ out.cell i "type" =
          (if df.cell i "MakeText" = Val.str "HARLEY-DAVIDSON"
              ∨ df.cell i "BodyTypeText" = Val.str "Sattelschlepper"
            then Val.str "Other" else Val.str "car") := by
  obtain ⟨out, hrun, -, -, -, hcells⟩ := normalize_spec df h
  exact ⟨out, hrun, (hcells i hi).1⟩

theorem claim_C4_witness :
    preN dfW ∧ 0 < dfW.rows.length ∧
      ∃ out, normalize_supplier_data dfW = .ok out
        ∧ out.cell 0 "type" =
            (if dfW.cell 0 "MakeText" = Val.str "HARLEY-DAVIDSON"
                ∨ dfW.cell 0 "BodyTypeText" = Val.str "Sattelschlepper"
              then Val.str "Other" else Val.str "car") :=
  ⟨by decide, by decide, claim_C4 dfW (by decide) 0 (by decide)⟩

/-- Claim C5: when the normalized dataframe carries every target column, the
integrator succeeds, its output columns are exactly the target columns in
target order, and any normalized column outside the target schema is
dropped. -/
theorem claim_C5 (step2_df customer_df : DF)
    (h : ∀ c ∈ customer_df.cols, step2_df.hasCol c) :
    ∃ out, integrate_supplier_data step2_df customer_df customer_df.cols = .ok out
      ∧ out.cols = customer_df.cols
      ∧ ∀ c, step2_df.hasCol c → c ∉ customer_df.cols → ¬ out.hasCol c := by
  have hcols : (concatIgnoreIndex customer_df
      ⟨customer_df.cols, step2_df.rows.map (reindexRow customer_df.cols)⟩).cols
      = customer_df.cols :=
    concatCols_eq_left customer_df _ rfl
  refine ⟨_, integrate_eq_ok step2_df customer_df customer_df.cols h, hcols, ?_⟩
  intro c hc hnc hmem
  simp only [DF.hasCol, hcols] at hmem
  exact hnc hmem

theorem claim_C5_witness :
    (∀ c ∈ custW.cols, suppW.hasCol c) ∧
      ∃ out, integrate_supplier_data suppW custW custW.cols = .ok out
        ∧ out.cols = custW.cols
        ∧ ∀ c, suppW.hasCol c → c ∉ custW.cols → ¬ out.hasCol c :=
  ⟨by decide, claim_C5 suppW custW (by decide)⟩

/-- Claim C6: the integrated result has target rows first and supplier rows
after, each segment in original order, with row count the sum of the two;
rows are addressed by the fresh zero-based positional index of the combined
result. -/
theorem claim_C6 (step2_df customer_df : DF)
    (h : ∀ c ∈ customer_df.cols, step2_df.hasCol c) :
    ∃ out, integrate_supplier_data step2_df customer_df customer_df.cols = .ok out
      ∧ out.rows.length = customer_df.rows.length + step2_df.rows.length
      ∧ (∀ i c, i < customer_df.rows.length → c ∈ customer_df.cols →
          out.cell i c = customer_df.cell i c)
      ∧ (∀ j c, j < step2_df.rows.length → c ∈ customer_df.cols →
          out.cell (customer_df.rows.length + j) c = step2_df.cell j c) := by
  refine ⟨_, integrate_eq_ok step2_df customer_df customer_df.cols h, ?_, ?_, ?_⟩
  · rw [concat_rows_length]
    simp
  · intro i c hi hc
    rw [concat_cell_left customer_df _ i c hi
      (by unfold concatCols; exact List.mem_append_left _ hc)]
  · intro j c hj hc
    have hjP : j < (DF.mk customer_df.cols
        (step2_df.rows.map (reindexRow customer_df.cols))).rows.length := by
      simpa using hj
    rw [concat_cell_right customer_df _ j c hjP
      (by unfold concatCols; exact List.mem_append_left _ hc)]
    rw [DF.cell_in_range _ j c hjP, step2_df.cell_in_range j c hj]
    simp only [List.getElem_map]
    exact getV_reindexRow _ _ _ hc

theorem claim_C6_witness :
    (∀ c ∈ custW.cols, suppW.hasCol c) ∧
      ∃ out, integrate_supplier_data suppW custW custW.cols = .ok out
        ∧ out.rows.length = custW.rows.length + suppW.rows.length
        ∧ (∀ i c, i < custW.rows.length → c ∈ custW.cols →
            out.cell i c = custW.cell i c)
        ∧ (∀ j c, j < suppW.rows.length → c ∈ custW.cols →
            out.cell (custW.rows.length + j) c = suppW.cell j c) :=
  ⟨by decide, claim_C6 suppW custW (by decide)⟩

/-- Claim C7: on a duplicate-free long-format input the reshaper succeeds,
its row count is the number of distinct identity tuples, and its column set
is the six identity fields together with the attribute names occurring in the
input. -/
theorem claim_C7 (records : List SupplierRecord)
    (h : (pivotPairs records).Nodup) :
    ∃ df, preprocessing_supplier_data records = .ok df
      ∧ df.rows.length = (records.map SupplierRecord.identity).dedup.length
      ∧ ∀ c, df.hasCol c ↔
          (c ∈ identityCols ∨ c ∈ records.map SupplierRecord.attrName) := by
  unfold preprocessing_supplier_data
  rw [if_pos h]
  refine ⟨_, rfl, ?_, ?_⟩
  · simp only [List.length_map]
    exact (List.perm_insertionSort _ _).length_eq
  · intro c
    show c ∈ identityCols ++ pivotAttrNames records ↔ _
    rw [List.mem_append]
    constructor
    · rintro (hc | hc)
      · exact Or.inl hc
      · exact Or.inr (List.mem_dedup.mp
          ((List.perm_insertionSort _ _).mem_iff.mp hc))
    · rintro (hc | hc)
      · exact Or.inl hc
      · exact Or.inr ((List.perm_insertionSort _ _).mem_iff.mpr
          (List.mem_dedup.mpr hc))

theorem claim_C7_witness :
    (pivotPairs recsW).Nodup ∧
      ∃ df, preprocessing_supplier_data recsW = .ok df
        ∧ df.rows.length = (recsW.map SupplierRecord.identity).dedup.length
        ∧ ∀ c, df.hasCol c ↔
            (c ∈ identityCols ∨ c ∈ recsW.map SupplierRecord.attrName) :=
  ⟨by decide, claim_C7 recsW (by decide)⟩

/-- Claim C8: feeding an already-normalized dataframe back into the
normalizer raises a fatal missing-column error instead of acting as a no-op:
the first run renamed `MakeText` away, and the second run's `.loc` mask at
line 128 looks `MakeText` up again. -/
theorem claim_C8 (df out : DF) (h : normalize_supplier_data df = .ok out) :
    ∃ e, normalize_supplier_data out = .error e :=
  normalize_err_of_no_MakeText out (normalize_ok_no_MakeText h)

theorem claim_C8_witness :
    normalize_supplier_data dfW = .ok normOutW ∧
      ∃ e, normalize_supplier_data normOutW = .error e :=
  ⟨by decide, claim_C8 dfW normOutW (by decide)⟩

/-- Claim C9: a value in `FirstRegYear`, `Km` or `FirstRegMonth` that its
`astype` coercion cannot convert makes the whole normalization abort with an
error (lines 273, 280, 315); no row is skipped and no partial dataframe is
produced — the run's only outcome is the error. -/
theorem claim_C9 (df : DF) (i : Nat) (hi : i < df.rows.length)
    (hbad : (intCoerce? (df.cell i "FirstRegYear")).isSome = false
      ∨ (floatCoerce? (df.cell i "Km")).isSome = false
      ∨ (floatCoerce? (df.cell i "FirstRegMonth")).isSome = false) :
    ∃ e, normalize_supplier_data df = .error e :=
  normalize_err_of_bad_numeric df i hi hbad

theorem claim_C9_witness :
    0 < dfBad.rows.length
    ∧ (intCoerce? (dfBad.cell 0 "FirstRegYear")).isSome = false
    ∧ ∃ e, normalize_supplier_data dfBad = .error e :=
  ⟨by decide, by decide, claim_C9 dfBad 0 (by decide) (Or.inl (by decide))⟩

/-- Claim C10: a duplicate (identity, attribute-name) pair makes the
reshaper's pivot raise (pandas `DataFrame.pivot` rejects duplicate
index/column entries) instead of keeping the last value. -/
theorem claim_C10 (records : List SupplierRecord)
    (h : ¬ (pivotPairs records).Nodup) :
    ∃ e, preprocessing_supplier_data records = .error e := by
  unfold preprocessing_supplier_data
  rw [if_neg h]
  exact ⟨_, rfl⟩

theorem claim_C10_witness :
    ¬ (pivotPairs recsDup).Nodup ∧
      ∃ e, preprocessing_supplier_data recsDup = .error e :=
  ⟨by decide, claim_C10 recsDup (by decide)⟩

end Onedot
